import Mathlib

/-!
# Account-officer dashboard reports (`handlers/AO/dashboardAO.go`)

A shallow embedding of the nine report handlers of the dashboard and of the SQL
statements they send to the record store.  Tables are lists of rows, `NULL` is
`none`, a `GROUP BY` is the list of distinct keys together with the rows of each
key, and a handler is a function from the request and the store to the HTTP
response together with the statements it issued.  Amounts are exact decimals in
the statements and `float64` values in the reports.
-/

namespace RbiBackend

/-! ## Calendar dates -/

/-- A calendar date as the store holds it: civil year, month (1..12) and day of month. -/
structure Date where
  year : Int
  month : Nat
  day : Nat
deriving DecidableEq, Repr

/-- Leap years of the proleptic Gregorian calendar. -/
def isLeapYear (y : Int) : Bool :=
  decide (y % 4 = 0) && (decide (y % 100 ≠ 0) || decide (y % 400 = 0))

/-- Days elapsed before the first of January of year `y`. -/
def daysBeforeYear (y : Int) : Int :=
  365 * (y - 1) + (y - 1) / 4 - (y - 1) / 100 + (y - 1) / 400

/-- Days of year `y` elapsed before the first day of month `m`. -/
def daysBeforeMonth (y : Int) (m : Nat) : Int :=
  let c : Int := [0, 31, 59, 90, 120, 151, 181, 212, 243, 273, 304, 334].getD (m - 1) 0
  if decide (2 < m) && isLeapYear y then c + 1 else c

/-- The day number of a date; dates and timestamps at midnight are compared through it. -/
def Date.toDays (d : Date) : Int :=
  daysBeforeYear d.year + daysBeforeMonth d.year d.month + (d.day : Int)

/-- The function `DATE_TRUNC('month', d)`: the first day of the month of `d`. -/
def DATE_TRUNC_month (d : Date) : Date :=
  { d with day := 1 }

/-- The value `INTERVAL 'k weeks'` in days. -/
def INTERVAL_weeks (k : Int) : Int := 7 * k

/-- The predicate `x BETWEEN a AND b` on dates (both ends inclusive). -/
def between (x a b : Date) : Bool :=
  decide (a.toDays ≤ x.toDays) && decide (x.toDays ≤ b.toDays)

/-- The `CASE ... END AS "Week"` expression of the two weekly statements, applied to the
governing date `t` of a row (`ci.l_date_recog`, resp. `la.opening_date::date`). -/
def weekCase (t : Date) : String :=
  let m := (DATE_TRUNC_month t).toDays
  if t.toDays ≥ m ∧ t.toDays < m + INTERVAL_weeks 1 then "Week 1"
  else if t.toDays ≥ m + INTERVAL_weeks 1 ∧ t.toDays < m + INTERVAL_weeks 2 then "Week 2"
  else if t.toDays ≥ m + INTERVAL_weeks 2 ∧ t.toDays < m + INTERVAL_weeks 3 then "Week 3"
  else if t.toDays ≥ m + INTERVAL_weeks 3 ∧ t.toDays < m + INTERVAL_weeks 4 then "Week 4"
  else "Week 5"

/-- The expression `EXTRACT(YEAR FROM AGE(dob))` evaluated on the day `today`: the symbolic difference in
whole years, negative when the date of birth lies after `today`. -/
def ageYears (today dob : Date) : Int :=
  let whole (a b : Date) : Int :=
    b.year - a.year - (if b.month < a.month ∨ (b.month = a.month ∧ b.day < a.day) then 1 else 0)
  if dob.toDays ≤ today.toDays then whole dob today else - whole today dob

/-! ## Numeric values read into `float64` fields -/

/-- Auxiliary of `bitLength`: the recursion on the halved number, bounded by `fuel`. -/
def bitLengthAux : Nat → Nat → Nat
  | 0, _ => 0
  | fuel + 1, n => if n = 0 then 0 else bitLengthAux fuel (n / 2) + 1

/-- The number of binary digits of `n`, none for 0. -/
def bitLength (n : Nat) : Nat :=
  bitLengthAux n n

/-- The binary exponent of the unit in the last place of the float64 nearest to `n / d`, for
positive `n` and `d`: with `E` the exponent of the leading bit of `n / d` it is `E - 52`, so
that the significand has 53 bits, and never below -1074, the exponent of the subnormal
values. -/
def float64Exponent (n d : Nat) : Int :=
  let k := bitLength n - 1
  let l := bitLength d - 1
  let E : Int :=
    if d * 2 ^ k ≤ n * 2 ^ l then (k : Int) - (l : Int) else (k : Int) - (l : Int) - 1
  max (E - 52) (-1074)

/-- The integer significand of the float64 nearest to `n / d`: the quotient of `n / d` by
`2 ^ float64Exponent n d`, rounded to the nearest integer, a tie to the even one. -/
def float64Mantissa (n d : Nat) : Nat :=
  let e := float64Exponent n d
  let num := n * 2 ^ (-e).toNat
  let den := d * 2 ^ e.toNat
  let m := num / den
  let r := num % den
  if den < 2 * r ∨ (2 * r = den ∧ m % 2 = 1) then m + 1 else m

/-- The value `float64Mantissa n d * 2 ^ float64Exponent n d` as a rational. -/
def float64Magnitude (n d : Nat) : ℚ :=
  ((float64Mantissa n d * 2 ^ (float64Exponent n d).toNat : Nat) : ℚ)
    / ((2 ^ (-(float64Exponent n d)).toNat : Nat) : ℚ)

/-- The float64 nearest to the decimal `q` (round to nearest, ties to even), as the rational
it denotes: what `strconv.ParseFloat` makes of the text of a `numeric` when the database
layer reads it into a `float64` field. -/
def roundFloat64 (q : ℚ) : ℚ :=
  if q.num < 0 then - float64Magnitude q.num.natAbs q.den
  else float64Magnitude q.num.natAbs q.den

/-- The decimal `q` is within the range of float64: the float64 nearest to it is below
`2 ^ 1024`, which is to say that the leading bit of `float64Mantissa * 2 ^ float64Exponent`
is at most the bit 1023; otherwise the conversion fails with a range error. -/
def float64InRange (q : ℚ) : Bool :=
  decide ((bitLength (float64Mantissa q.num.natAbs q.den) : Int)
    + float64Exponent q.num.natAbs q.den ≤ 1024)

/-- A finite `float64` value of a report, given by the fraction in lowest terms that it
denotes (the sign of a zero is not kept). -/
structure Float64 where
  num : Int
  den : Nat
deriving Repr

instance : DecidableEq Float64 := fun a b =>
  decidable_of_iff (a.num = b.num ∧ a.den = b.den) (by cases a; cases b; simp)

/-- The rational a float64 value denotes. -/
def Float64.toRat (x : Float64) : ℚ :=
  (x.num : ℚ) / (x.den : ℚ)

/-- The float64 value that a `numeric` within range is read as. -/
def float64OfNumeric (q : ℚ) : Float64 :=
  { num := (roundFloat64 q).num, den := (roundFloat64 q).den }

/-! ## The record store -/

/-- Modelled from the spec: the schema of `public.customer_info` is not in the source; the
columns are the ones the statements read, all of them non-null (the identifier `t_id` is the
unique key of a client record). -/
structure CustomerInfo where
  t_id : String
  account_officer : String
  l_date_recog : Date
  date_of_birth : Date
  member_status : String
  unit_name : String
  center_name : String
  customer_name : String
deriving DecidableEq, Repr

/-- Modelled from the spec: the schema of `public.loan_acct` is not in the source; the
columns are the ones the statements read.  The customer reference, the bill type and the
account title may be `NULL`; `opening_date` and `online_actual_bal` hold the values of the
casts `::date` and `::numeric`. -/
structure LoanAcct where
  account_officer : String
  customer : Option String
  opening_date : Date
  bill_type : Option String
  bill_status : String
  online_actual_bal : ℚ
  account_title_1 : Option String
deriving DecidableEq, Repr

/-- The output format of the capital build-up statement. -/
structure CapitalBuildUpResult where
  Title : String
  TotalCapital : Float64
deriving DecidableEq, Repr

/-- The record store behind `database.DB`: the two tables, the store's reading of a date
parameter (`none` when the text is no date, which fails the statement), the store's current
date, and the stored function `get_capital_build_up`, whose body is not in the source
(`none` when its call fails). -/
structure DB where
  customer_info : List CustomerInfo
  loan_acct : List LoanAcct
  dateIn : String → Option Date
  today : Date
  get_capital_build_up : String → String → String → Option (List CapitalBuildUpResult)

/-! ## Requests and responses -/

/-- The request context: the query-string parameters in the order given. -/
structure Ctx where
  params : List (String × String)

/-- The call `c.Query(key)`: the value of the parameter, the empty string when it is absent. -/
def Ctx.Query (c : Ctx) (key : String) : String :=
  (c.params.lookup key).getD ""

/-- The call `c.Query(key, defaultValue)`: the default stands in for an absent or empty value. -/
def Ctx.QueryDefault (c : Ctx) (key : String) (defaultValue : String) : String :=
  if c.Query key = "" then defaultValue else c.Query key

/-- The nine statements of the handlers. -/
inductive Sql where
  | totalCountsClient
  | loanAccountTotals
  | capitalBuildUp
  | ageGroupCounts
  | productCounts
  | centerSummary
  | weeklyCustomerCount
  | weeklyCapitalBuildUp
  | clients
deriving DecidableEq, Repr

/-- One call of `database.DB.Raw`: the statement and its bound parameters. -/
structure Statement where
  sql : Sql
  args : List String
deriving DecidableEq, Repr

/-- What a handler sends back: `c.JSON(body)` or `c.Status(code).JSON(error)`. -/
inductive Response (ρ : Type) where
  | json (status : Nat) (body : ρ)
  | error (status : Nat) (message : String)
deriving DecidableEq, Repr

/-- The result of one handler call: the response and the statements sent to the store. -/
structure Outcome (ρ : Type) where
  response : Response ρ
  issued : List Statement
deriving DecidableEq, Repr

/-- The guard every handler starts with. -/
def missingParameters (accountOfficer startDate endDate : String) : Bool :=
  decide (accountOfficer = "") || decide (startDate = "") || decide (endDate = "")

/-- Runs a statement body once both date parameters have been read by the store. -/
def withDates {α : Type} (db : DB) (startDate endDate : String) (k : Date → Date → α) :
    Option α :=
  match db.dateIn startDate, db.dateIn endDate with
  | some s, some e => some (k s e)
  | _, _ => none

/-! ## SQL building blocks -/

/-- The keys of `GROUP BY key`: each distinct key value once (`NULL` keys form one group). -/
def groupKeys {α κ : Type} [DecidableEq κ] (key : α → κ) (rows : List α) : List κ :=
  (rows.map key).dedup

/-- The rows of the group of key `k`. -/
def groupOf {α κ : Type} [DecidableEq κ] (key : α → κ) (rows : List α) (k : κ) : List α :=
  rows.filter (fun r => decide (key r = k))

/-- The aggregate `COUNT(col)`: the rows whose `col` is not `NULL`. -/
def sqlCount {α β : Type} (col : α → Option β) (rows : List α) : Nat :=
  rows.countP (fun r => (col r).isSome)

/-- The aggregate `COUNT(*)`: all rows. -/
def sqlCountStar {α : Type} (rows : List α) : Nat :=
  rows.length

/-- The distinct non-null values of `col` over the rows. -/
def distinctValues {α : Type} (col : α → Option String) (rows : List α) : List String :=
  (rows.filterMap col).dedup

/-- The aggregate `COUNT(DISTINCT col)`. -/
def sqlCountDistinct {α : Type} (col : α → Option String) (rows : List α) : Nat :=
  (distinctValues col rows).length

/-- The aggregate `SUM(col)` over non-null numeric values. -/
def sqlSum {α : Type} (col : α → ℚ) (rows : List α) : ℚ :=
  (rows.map col).sum

/-- Character-wise comparison of two texts by code point, a shorter text first. -/
def charsLe : List Char → List Char → Bool
  | [], _ => true
  | _ :: _, [] => false
  | a :: as, b :: bs =>
    decide (a.toNat < b.toNat) || (decide (a.toNat = b.toNat) && charsLe as bs)

/-- The sort order of text values in `ORDER BY`. -/
def textLe (a b : String) : Bool :=
  charsLe a.data b.data

/-- The client filter `ci.account_officer = ? AND ci.l_date_recog BETWEEN ? AND ?`. -/
def clientWhere (officer : String) (s e : Date) (ci : CustomerInfo) : Bool :=
  decide (ci.account_officer = officer) && between ci.l_date_recog s e

/-- The loan filter `la.account_officer = ? AND la.opening_date::date BETWEEN ? AND ?`. -/
def loanWhere (officer : String) (s e : Date) (la : LoanAcct) : Bool :=
  decide (la.account_officer = officer) && between la.opening_date s e

/-- The expression `CASE WHEN cond THEN val END`: `NULL` when the condition does not hold. -/
def caseWhen {α β : Type} (cond : α → Bool) (val : α → β) (r : α) : Option β :=
  if cond r then some (val r) else none

/-- The loop `for rows.Next() { rows.Scan(...); append }`: it stops with an error at the
first row that does not scan. -/
def scanRows {α β : Type} (scan : α → Option β) : List α → Option (List β)
  | [] => some []
  | r :: rs =>
    match scan r with
    | none => none
    | some x =>
      match scanRows scan rs with
      | none => none
      | some xs => some (x :: xs)

/-! ## Status counts (`GetTotalCountsClient`) -/

/-- Result represents the output format. -/
structure Result where
  Particulars : String
  Count : Nat
deriving DecidableEq, Repr

/-- The clients selected by the filter of the client statements. -/
def matchingClients (db : DB) (officer : String) (s e : Date) : List CustomerInfo :=
  db.customer_info.filter (clientWhere officer s e)

/-- First branch of the statement: `count(ci.t_id)` per `ci.member_status`. -/
def statusCountRows (db : DB) (officer : String) (s e : Date) : List Result :=
  let ci := matchingClients db officer s e
  (groupKeys (fun r => r.member_status) ci).map fun k =>
    { Particulars := k
      Count := sqlCount (fun r => some r.t_id) (groupOf (fun r => r.member_status) ci k) }

/-- Second branch of the statement: the `'Total Client'` row with `Count(*)`. -/
def totalClientRow (db : DB) (officer : String) (s e : Date) : Result :=
  { Particulars := "Total Client", Count := sqlCountStar (matchingClients db officer s e) }

/-- The rows of the status counts statement (`UNION ALL` of its two branches). -/
def totalCountsClientRows (db : DB) (officer : String) (s e : Date) : List Result :=
  statusCountRows db officer s e ++ [totalClientRow db officer s e]

/-- Handler of the status counts report. -/
def GetTotalCountsClient (db : DB) (c : Ctx) : Outcome (List Result) :=
  let accountOfficer := c.Query "account_officer"
  let startDate := c.Query "start_date"
  let endDate := c.Query "end_date"
  if missingParameters accountOfficer startDate endDate then
    { response := .error 400 "Missing required parameters", issued := [] }
  else
    let stmt : Statement :=
      ⟨.totalCountsClient,
        [accountOfficer, startDate, endDate, accountOfficer, startDate, endDate]⟩
    match withDates db startDate endDate (totalCountsClientRows db accountOfficer) with
    | none => { response := .error 500 "Failed to get total values", issued := [stmt] }
    | some rows => { response := .json 200 rows, issued := [stmt] }

/-! ## Loan totals (`GetLoanAccountTotals`) -/

/-- LoanAccountResult represents the output format for the loan account query. -/
structure LoanAccountResult where
  Particulars : String
  Count : Nat
  Amount : Float64
deriving DecidableEq, Repr

/-- A row of the loan totals statement as the store returns it: the group key may be `NULL`,
the amount is an exact `numeric`. -/
structure LoanTotalsRow where
  Particulars : Option String
  Count : Nat
  Amount : ℚ
deriving DecidableEq, Repr

/-- The loan accounts selected by the filter of the loan statements. -/
def matchingLoans (db : DB) (officer : String) (s e : Date) : List LoanAcct :=
  db.loan_acct.filter (loanWhere officer s e)

/-- The row of one bill-type group: `count(la.bill_type)` and
`sum(la.online_actual_bal::numeric) * -1`. -/
def loanTotalsRowOf (la : List LoanAcct) (k : Option String) : LoanTotalsRow :=
  let g := groupOf (fun r => r.bill_type) la k
  { Particulars := k
    Count := sqlCount (fun r => r.bill_type) g
    Amount := sqlSum (fun r => r.online_actual_bal) g * -1 }

/-- The rows of the loan totals statement: one per `la.bill_type`. -/
def loanAccountTotalsRows (db : DB) (officer : String) (s e : Date) : List LoanTotalsRow :=
  let la := matchingLoans db officer s e
  (groupKeys (fun r => r.bill_type) la).map (loanTotalsRowOf la)

/-- Reading a row into the output struct with `Scan(&results)`: a `NULL` leaves the zero
value of the field, the `numeric` amount becomes the nearest float64. -/
def scanLoanAccountResult (r : LoanTotalsRow) : LoanAccountResult :=
  { Particulars := r.Particulars.getD "", Count := r.Count, Amount := float64OfNumeric r.Amount }

/-- Handler of the loan totals report. -/
def GetLoanAccountTotals (db : DB) (c : Ctx) : Outcome (List LoanAccountResult) :=
  let accountOfficer := c.Query "account_officer"
  let startDate := c.Query "start_date"
  let endDate := c.Query "end_date"
  if missingParameters accountOfficer startDate endDate then
    { response := .error 400 "Missing required parameters", issued := [] }
  else
    let stmt : Statement := ⟨.loanAccountTotals, [accountOfficer, startDate, endDate]⟩
    match withDates db startDate endDate (loanAccountTotalsRows db accountOfficer) with
    | none => { response := .error 500 "Failed to get loan account totals", issued := [stmt] }
    | some rows =>
      if rows.all (fun r => float64InRange r.Amount) then
        { response := .json 200 (rows.map scanLoanAccountResult), issued := [stmt] }
      else
        { response := .error 500 "Failed to get loan account totals", issued := [stmt] }

/-! ## Capital build-up (`GetCapitalBuildUp`) -/

/-- Handler of the capital build-up report: `SELECT * FROM get_capital_build_up(?, ?, ?)`. -/
def GetCapitalBuildUp (db : DB) (c : Ctx) : Outcome (List CapitalBuildUpResult) :=
  let accountOfficer := c.Query "account_officer"
  let startDate := c.Query "start_date"
  let endDate := c.Query "end_date"
  if missingParameters accountOfficer startDate endDate then
    { response := .error 400 "Missing required parameters", issued := [] }
  else
    let stmt : Statement := ⟨.capitalBuildUp, [accountOfficer, startDate, endDate]⟩
    match db.get_capital_build_up accountOfficer startDate endDate with
    | none =>
      { response := .error 500 "Failed to get capital build-up total", issued := [stmt] }
    | some rows => { response := .json 200 rows, issued := [stmt] }

/-! ## Age brackets (`GetAgeGroupCounts`) -/

/-- AgeGroupCount represents the output format for the age group counts query. -/
structure AgeGroupCount where
  Age18_29 : Nat
  Age30_39 : Nat
  Age40_49 : Nat
  Age50_59 : Nat
  Age60_69 : Nat
  Age70_79 : Nat
  Age80Plus : Nat
  Total : Nat
deriving DecidableEq, Repr

/-- The aggregate
`COUNT(CASE WHEN EXTRACT(YEAR FROM AGE(ci.date_of_birth)) BETWEEN lo AND hi THEN 1 END)`. -/
def countAgeBetween (today : Date) (lo hi : Int) (ci : List CustomerInfo) : Nat :=
  sqlCount
    (caseWhen (fun r => decide (lo ≤ ageYears today r.date_of_birth) &&
      decide (ageYears today r.date_of_birth ≤ hi)) (fun _ => (1 : Nat))) ci

/-- The aggregate `COUNT(CASE WHEN EXTRACT(YEAR FROM AGE(ci.date_of_birth)) >= lo THEN 1 END)`. -/
def countAgeFrom (today : Date) (lo : Int) (ci : List CustomerInfo) : Nat :=
  sqlCount (caseWhen (fun r => decide (ageYears today r.date_of_birth ≥ lo)) (fun _ => (1 : Nat))) ci

/-- The eight aggregates of the age bracket statement over the selected clients. -/
def ageRowOf (today : Date) (ci : List CustomerInfo) : AgeGroupCount :=
  { Age18_29 := countAgeBetween today 18 29 ci
    Age30_39 := countAgeBetween today 30 39 ci
    Age40_49 := countAgeBetween today 40 49 ci
    Age50_59 := countAgeBetween today 50 59 ci
    Age60_69 := countAgeBetween today 60 69 ci
    Age70_79 := countAgeBetween today 70 79 ci
    Age80Plus := countAgeFrom today 80 ci
    Total := sqlCountStar ci }

/-- The single row of the age bracket statement. -/
def ageGroupCountsRow (db : DB) (officer : String) (s e : Date) : AgeGroupCount :=
  ageRowOf db.today (matchingClients db officer s e)

/-- The sum of the seven bracket counts of a report. -/
def bracketSum (r : AgeGroupCount) : Nat :=
  r.Age18_29 + r.Age30_39 + r.Age40_49 + r.Age50_59 + r.Age60_69 + r.Age70_79 + r.Age80Plus

/-- Handler of the age bracket report. -/
def GetAgeGroupCounts (db : DB) (c : Ctx) : Outcome AgeGroupCount :=
  let accountOfficer := c.Query "account_officer"
  let startDate := c.Query "start_date"
  let endDate := c.Query "end_date"
  if missingParameters accountOfficer startDate endDate then
    { response := .error 400 "Missing required parameters", issued := [] }
  else
    let stmt : Statement := ⟨.ageGroupCounts, [accountOfficer, startDate, endDate]⟩
    match withDates db startDate endDate (ageGroupCountsRow db accountOfficer) with
    | none => { response := .error 500 "Failed to get age group counts", issued := [stmt] }
    | some row => { response := .json 200 row, issued := [stmt] }

/-! ## Product counts (`GetProductCounts`) -/

/-- ProductCount represents the output format for the product count query. -/
structure ProductCount where
  ProductName : String
  Count : Nat
deriving DecidableEq, Repr

/-- A row of the product counts statement as the store returns it. -/
structure ProductCountRow where
  ProductName : Option String
  Count : Nat
deriving DecidableEq, Repr

/-- The rows of the product counts statement: `COUNT(account_title_1)` per
`account_title_1`. -/
def productCountsRows (db : DB) (officer : String) (s e : Date) : List ProductCountRow :=
  let la := matchingLoans db officer s e
  (groupKeys (fun r => r.account_title_1) la).map fun k =>
    { ProductName := k
      Count := sqlCount (fun r => r.account_title_1) (groupOf (fun r => r.account_title_1) la k) }

/-- The call `rows.Scan(&productCount.ProductName, &productCount.Count)`: a `NULL` does not scan into
a string. -/
def scanProductCount (r : ProductCountRow) : Option ProductCount :=
  match r.ProductName with
  | none => none
  | some name => some { ProductName := name, Count := r.Count }

/-- Handler of the product counts report. -/
def GetProductCounts (db : DB) (c : Ctx) : Outcome (List ProductCount) :=
  let accountOfficer := c.Query "account_officer"
  let startDate := c.Query "start_date"
  let endDate := c.Query "end_date"
  if missingParameters accountOfficer startDate endDate then
    { response := .error 400 "Missing required parameters", issued := [] }
  else
    let stmt : Statement := ⟨.productCounts, [accountOfficer, startDate, endDate]⟩
    match withDates db startDate endDate (productCountsRows db accountOfficer) with
    | none => { response := .error 500 "Failed to get product counts", issued := [stmt] }
    | some rows =>
      match scanRows scanProductCount rows with
      | none => { response := .error 500 "Failed to parse product counts", issued := [stmt] }
      | some results => { response := .json 200 results, issued := [stmt] }

/-! ## Center summary (`GetCenterSummary`) -/

/-- CenterSummary represents the output format for the center summary query. -/
structure CenterSummary where
  CenterName : String
  NoOfClients : Nat
  WithLoans : Nat
  WithoutLoans : Nat
  PastDue : Nat
deriving DecidableEq, Repr

/-- A row of `customer_info ci LEFT JOIN loan_acct la`: the loan side is `NULL` for a client
without a partner row. -/
abbrev Joined := CustomerInfo × Option LoanAcct

/-- The loan rows joined to a client: `ci.t_id = la.customer`. -/
def loansOf (las : List LoanAcct) (ci : CustomerInfo) : List LoanAcct :=
  las.filter (fun la => decide (la.customer = some ci.t_id))

/-- The rows the left join produces for one client. -/
def joinClient (las : List LoanAcct) (ci : CustomerInfo) : List Joined :=
  match loansOf las ci with
  | [] => [(ci, none)]
  | la :: rest => (la :: rest).map (fun l => (ci, some l))

/-- The join `public.customer_info ci LEFT JOIN public.loan_acct la ON ci.t_id = la.customer`. -/
def leftJoinLoans (cis : List CustomerInfo) (las : List LoanAcct) : List Joined :=
  (cis.map (joinClient las)).flatten

/-- The column `la.customer` of a joined row. -/
def Joined.la_customer (r : Joined) : Option String :=
  r.2.bind (fun la => la.customer)

/-- The column `la.bill_status` of a joined row. -/
def Joined.la_bill_status (r : Joined) : Option String :=
  r.2.map (fun la => la.bill_status)

/-- The expression `CASE WHEN la.customer IS NOT NULL THEN ci.t_id END`. -/
def withLoanId : Joined → Option String :=
  caseWhen (fun r => r.la_customer.isSome) (fun r => r.1.t_id)

/-- The expression `CASE WHEN la.customer IS NULL THEN ci.t_id END`. -/
def withoutLoanId : Joined → Option String :=
  caseWhen (fun r => r.la_customer.isNone) (fun r => r.1.t_id)

/-- The expression `CASE WHEN la.bill_status = 'DUE' THEN ci.t_id END`. -/
def pastDueId : Joined → Option String :=
  caseWhen (fun r => decide (r.la_bill_status = some "DUE")) (fun r => r.1.t_id)

/-- The four `COUNT(DISTINCT ...)` of the statement over a set of joined rows. -/
def centerAggregates (name : String) (g : List Joined) : CenterSummary :=
  { CenterName := name
    NoOfClients := sqlCountDistinct (fun r => some r.1.t_id) g
    WithLoans := sqlCountDistinct withLoanId g
    WithoutLoans := sqlCountDistinct withoutLoanId g
    PastDue := sqlCountDistinct pastDueId g }

/-- The joined rows that pass the `WHERE` clause of the center summary statement. -/
def matchingJoined (db : DB) (officer : String) (s e : Date) : List Joined :=
  (leftJoinLoans db.customer_info db.loan_acct).filter (fun r => clientWhere officer s e r.1)

/-- The joined rows of the group of center `name`. -/
def centerGroup (db : DB) (officer : String) (s e : Date) (name : String) : List Joined :=
  groupOf (fun r => r.1.center_name) (matchingJoined db officer s e) name

/-- First branch of the statement: one row per `ci.center_name`. -/
def centerRows (db : DB) (officer : String) (s e : Date) : List CenterSummary :=
  (groupKeys (fun r => r.1.center_name) (matchingJoined db officer s e)).map fun k =>
    centerAggregates k (centerGroup db officer s e k)

/-- Second branch of the statement: the `'Total Centers'` row over all joined rows. -/
def totalCentersRow (db : DB) (officer : String) (s e : Date) : CenterSummary :=
  centerAggregates "Total Centers" (matchingJoined db officer s e)

/-- The rows of the center summary statement (`UNION ALL` of its two branches). -/
def centerSummaryRows (db : DB) (officer : String) (s e : Date) : List CenterSummary :=
  centerRows db officer s e ++ [totalCentersRow db officer s e]

/-- Handler of the center summary report. -/
def GetCenterSummary (db : DB) (c : Ctx) : Outcome (List CenterSummary) :=
  let accountOfficer := c.Query "account_officer"
  let startDate := c.Query "start_date"
  let endDate := c.Query "end_date"
  if missingParameters accountOfficer startDate endDate then
    { response := .error 400 "Missing required parameters", issued := [] }
  else
    let stmt : Statement :=
      ⟨.centerSummary, [accountOfficer, startDate, endDate, accountOfficer, startDate, endDate]⟩
    match withDates db startDate endDate (centerSummaryRows db accountOfficer) with
    | none => { response := .error 500 "Failed to get center summary", issued := [stmt] }
    | some rows => { response := .json 200 rows, issued := [stmt] }

/-! ## Weekly status counts (`GetWeeklyCustomerCount`) -/

/-- WeeklyCount represents the output format for the weekly customer count query. -/
structure WeeklyCount where
  Particulars : String
  Week : String
  Count : Nat
deriving DecidableEq, Repr

/-- The week label the weekly status statement gives a client row. -/
def weekOfRecog (ci : CustomerInfo) : String :=
  weekCase ci.l_date_recog

/-- First branch: `COUNT(ci.t_id)` per `ci.member_status, "Week"`. -/
def weeklyStatusRows (db : DB) (officer : String) (s e : Date) : List WeeklyCount :=
  let ci := matchingClients db officer s e
  (groupKeys (fun r => (r.member_status, weekOfRecog r)) ci).map fun k =>
    { Particulars := k.1
      Week := k.2
      Count := sqlCount (fun r => some r.t_id)
        (groupOf (fun r => (r.member_status, weekOfRecog r)) ci k) }

/-- Second branch: the `'Total Client'` rows, `COUNT(*)` per `"Week"`. -/
def weeklyTotalRows (db : DB) (officer : String) (s e : Date) : List WeeklyCount :=
  let ci := matchingClients db officer s e
  (groupKeys weekOfRecog ci).map fun w =>
    { Particulars := "Total Client"
      Week := w
      Count := sqlCountStar (groupOf weekOfRecog ci w) }

/-- The order of `ORDER BY "Particulars", "Week"`. -/
def weeklyCountOrder (a b : WeeklyCount) : Bool :=
  if a.Particulars = b.Particulars then textLe a.Week b.Week
  else textLe a.Particulars b.Particulars

/-- The rows of the weekly status statement. -/
def weeklyCustomerCountRows (db : DB) (officer : String) (s e : Date) : List WeeklyCount :=
  (weeklyStatusRows db officer s e ++ weeklyTotalRows db officer s e).insertionSort
    (fun a b => weeklyCountOrder a b = true)

/-- Handler of the weekly status counts report. -/
def GetWeeklyCustomerCount (db : DB) (c : Ctx) : Outcome (List WeeklyCount) :=
  let accountOfficer := c.Query "account_officer"
  let startDate := c.Query "start_date"
  let endDate := c.Query "end_date"
  if missingParameters accountOfficer startDate endDate then
    { response := .error 400 "Missing required parameters", issued := [] }
  else
    let stmt : Statement :=
      ⟨.weeklyCustomerCount,
        [accountOfficer, startDate, endDate, accountOfficer, startDate, endDate]⟩
    match withDates db startDate endDate (weeklyCustomerCountRows db accountOfficer) with
    | none => { response := .error 500 "Failed to get weekly customer count", issued := [stmt] }
    | some rows => { response := .json 200 rows, issued := [stmt] }

/-! ## Weekly capital build-up (`GetWeeklyCapitalBuildUp`) -/

/-- WeeklyCapitalBuildUp represents the output format for the weekly capital build-up query. -/
structure WeeklyCapitalBuildUp where
  Title : String
  Week : String
  TotalCapital : Float64
deriving DecidableEq, Repr

/-- A row of the weekly capital statement as the store returns it: the total is an exact
`numeric`. -/
structure WeeklyCapitalRow where
  Title : String
  Week : String
  TotalCapital : ℚ
deriving DecidableEq, Repr

/-- The week label the weekly capital statement gives a loan row. -/
def weekOfOpening (la : LoanAcct) : String :=
  weekCase la.opening_date

/-- The filter `la.account_officer = ? AND la.bill_type IS NOT NULL AND
la.opening_date::DATE BETWEEN ? AND ?`. -/
def capitalWhere (officer : String) (s e : Date) (la : LoanAcct) : Bool :=
  decide (la.account_officer = officer) && la.bill_type.isSome && between la.opening_date s e

/-- The loan accounts selected by the weekly capital statement. -/
def capitalLoans (db : DB) (officer : String) (s e : Date) : List LoanAcct :=
  db.loan_acct.filter (capitalWhere officer s e)

/-- The row of one week: `SUM(la.online_actual_bal::NUMERIC) * -1`. -/
def weeklyCapitalRowOf (la : List LoanAcct) (w : String) : WeeklyCapitalRow :=
  { Title := "Capital Build Up"
    Week := w
    TotalCapital := sqlSum (fun r => r.online_actual_bal) (groupOf weekOfOpening la w) * -1 }

/-- The rows of the weekly capital statement, in `ORDER BY "Week"`. -/
def weeklyCapitalBuildUpRows (db : DB) (officer : String) (s e : Date) :
    List WeeklyCapitalRow :=
  let la := capitalLoans db officer s e
  ((groupKeys weekOfOpening la).insertionSort (fun a b => textLe a b = true)).map
    (weeklyCapitalRowOf la)

/-- The call `rows.Scan(&capitalBuildUp.Title, &capitalBuildUp.Week,
&capitalBuildUp.TotalCapital)`: the `numeric` total becomes the nearest float64, and a total
out of the range of float64 does not scan. -/
def scanWeeklyCapitalBuildUp (r : WeeklyCapitalRow) : Option WeeklyCapitalBuildUp :=
  if float64InRange r.TotalCapital then
    some { Title := r.Title, Week := r.Week, TotalCapital := float64OfNumeric r.TotalCapital }
  else none

/-- Handler of the weekly capital build-up report. -/
def GetWeeklyCapitalBuildUp (db : DB) (c : Ctx) : Outcome (List WeeklyCapitalBuildUp) :=
  let accountOfficer := c.Query "account_officer"
  let startDate := c.Query "start_date"
  let endDate := c.Query "end_date"
  if missingParameters accountOfficer startDate endDate then
    { response := .error 400 "Missing required parameters", issued := [] }
  else
    let stmt : Statement := ⟨.weeklyCapitalBuildUp, [accountOfficer, startDate, endDate]⟩
    match withDates db startDate endDate (weeklyCapitalBuildUpRows db accountOfficer) with
    | none =>
      { response := .error 500 "Failed to get weekly capital build-up total", issued := [stmt] }
    | some rows =>
      match scanRows scanWeeklyCapitalBuildUp rows with
      | none =>
        { response := .error 500 "Failed to parse weekly capital build-up total",
          issued := [stmt] }
      | some results => { response := .json 200 results, issued := [stmt] }

/-! ## Client roster (`GetClients`) -/

/-- ActiveClientInfo represents the output format for the active client query. -/
structure ActiveClientInfo where
  UnitName : String
  CenterName : String
  CID : String
  ClientName : String
  DateRecognized : String
  MemberStatus : String
deriving DecidableEq, Repr

/-- Decimal digits of `n`, left-padded with zeros to width `w`. -/
def zeroPad (w n : Nat) : String :=
  String.mk (List.replicate (w - (Nat.repr n).length) '0') ++ Nat.repr n

/-- The formatting `to_char(d, 'Mon. DD, YYYY')`. -/
def to_char_Mon_DD_YYYY (d : Date) : String :=
  ["Jan", "Feb", "Mar", "Apr", "May", "Jun", "Jul", "Aug", "Sep", "Oct", "Nov", "Dec"].getD
      (d.month - 1) "" ++ ". " ++ zeroPad 2 d.day ++ ", " ++ zeroPad 4 d.year.toNat

/-- The rows of the roster statement: the matching clients of the given member status. -/
def clientsRows (db : DB) (officer memberStatus : String) (s e : Date) :
    List ActiveClientInfo :=
  (db.customer_info.filter
      (fun ci => clientWhere officer s e ci && decide (ci.member_status = memberStatus))).map
    fun ci =>
      { UnitName := ci.unit_name
        CenterName := ci.center_name
        CID := ci.t_id
        ClientName := ci.customer_name
        DateRecognized := to_char_Mon_DD_YYYY ci.l_date_recog
        MemberStatus := ci.member_status }

/-- Handler of the client roster report. -/
def GetClients (db : DB) (c : Ctx) : Outcome (List ActiveClientInfo) :=
  let accountOfficer := c.Query "account_officer"
  let startDate := c.Query "start_date"
  let endDate := c.Query "end_date"
  let memberStatus := c.QueryDefault "member_status" "Active"
  if missingParameters accountOfficer startDate endDate then
    { response := .error 400 "Missing required parameters", issued := [] }
  else
    let stmt : Statement := ⟨.clients, [accountOfficer, startDate, endDate, memberStatus]⟩
    match withDates db startDate endDate (clientsRows db accountOfficer memberStatus) with
    | none => { response := .error 500 "Failed to get active clients", issued := [stmt] }
    | some rows => { response := .json 200 rows, issued := [stmt] }

/-! ## Well-formed requests and sample stores -/

/-- The week label in the words of the specification, from the zero-based day offset `d` of
a date within its month: offsets 0..6 are week 1, 7..13 week 2, 14..20 week 3, 21..27 week 4
and 28 onwards week 5. -/
def specWeekLabel (d : Nat) : String :=
  if d ≤ 6 then "Week 1"
  else if d ≤ 13 then "Week 2"
  else if d ≤ 20 then "Week 3"
  else if d ≤ 27 then "Week 4"
  else "Week 5"

/-- The request carries the officer and both date parameters, none of them empty, and the
store reads the two dates as `s` and `e`. -/
def validRequest (db : DB) (c : Ctx) (officer : String) (s e : Date) : Prop :=
  c.Query "account_officer" = officer ∧ officer ≠ "" ∧ c.Query "start_date" ≠ "" ∧
    c.Query "end_date" ≠ "" ∧ db.dateIn (c.Query "start_date") = some s ∧
    db.dateIn (c.Query "end_date") = some e

/-- Some parameter of the guard is the empty string. -/
def someParameterEmpty (c : Ctx) : Prop :=
  c.Query "account_officer" = "" ∨ c.Query "start_date" = "" ∨ c.Query "end_date" = ""

/-- A handler answers 400 `Missing required parameters` exactly on the requests with an empty
parameter, and then sends nothing to the store. -/
def RejectsExactlyMissing {ρ : Type} (handler : DB → Ctx → Outcome ρ) : Prop :=
  ∀ (db : DB) (c : Ctx),
    ((handler db c).response = .error 400 "Missing required parameters" ↔ someParameterEmpty c) ∧
      (someParameterEmpty c → (handler db c).issued = [])

/-- Date reading of the sample stores: a table of three ISO dates. -/
def sampleDateIn (t : String) : Option Date :=
  if t = "2024-01-01" then some ⟨2024, 1, 1⟩
  else if t = "2024-12-31" then some ⟨2024, 12, 31⟩
  else if t = "2023-01-01" then some ⟨2023, 1, 1⟩
  else none

/-- A client of officer `O1` recognised on a day of March 2024. -/
def sampleClient (id status center : String) (day : Nat) : CustomerInfo :=
  { t_id := id, account_officer := "O1", l_date_recog := ⟨2024, 3, day⟩,
    date_of_birth := ⟨1990, 1, 1⟩, member_status := status, unit_name := "U1",
    center_name := center, customer_name := id }

/-- A loan account of officer `O1` opened on a day of March 2024. -/
def sampleLoan (customer billType title : Option String) (status : String) (bal : ℚ)
    (day : Nat) : LoanAcct :=
  { account_officer := "O1", customer := customer, opening_date := ⟨2024, 3, day⟩,
    bill_type := billType, bill_status := status, online_actual_bal := bal,
    account_title_1 := title }

/-- Three clients of statuses Active, Active, Inactive and three loan accounts, one of them
without bill type and account title, one with a balance stored positive. -/
def sampleDB : DB :=
  { customer_info :=
      [sampleClient "a" "Active" "C1" 1, sampleClient "b" "Active" "C1" 8,
        sampleClient "c" "Inactive" "C2" 30]
    loan_acct :=
      [sampleLoan (some "a") (some "W") (some "P") "DUE" (-5) 2,
        sampleLoan (some "a") none none "OK" (-7) 9,
        sampleLoan none (some "W") (some "P") "OK" 8 29]
    dateIn := sampleDateIn
    today := ⟨2024, 11, 4⟩
    get_capital_build_up := fun _ _ _ => none }

/-- A store with three clients born in 1990, 2010 and 1940: on the store's current date
they are 34, 14 and 83 years old. -/
def ageDB : DB :=
  { sampleDB with
    customer_info :=
      [sampleClient "a" "Active" "C1" 1,
        { sampleClient "b" "Active" "C1" 8 with date_of_birth := ⟨2010, 6, 15⟩ },
        { sampleClient "c" "Inactive" "C2" 30 with date_of_birth := ⟨1940, 11, 5⟩ }] }

/-- The sample store without the loan account that lacks bill type and account title. -/
def assignedDB : DB :=
  { sampleDB with
    loan_acct :=
      [sampleLoan (some "a") (some "W") (some "P") "DUE" (-5) 2,
        sampleLoan none (some "W") (some "P") "OK" 8 29] }

/-- A store with two loan accounts of different bill types opened in the same week, with the
balances -0.1 and -0.2. -/
def floatDB : DB :=
  { sampleDB with
    loan_acct :=
      [sampleLoan none (some "A") (some "P") "OK" (-1 / 10) 2,
        sampleLoan none (some "B") (some "P") "OK" (-2 / 10) 3] }

/-- A store with one loan account of balance -9007199254740993, which is `-(2 ^ 53 + 1)`. -/
def bigDB : DB :=
  { sampleDB with
    loan_acct := [sampleLoan none (some "W") (some "P") "OK" (-9007199254740993) 2] }

/-- The request for officer `O1` over the year 2024. -/
def sampleCtx : Ctx :=
  { params :=
      [("account_officer", "O1"), ("start_date", "2024-01-01"), ("end_date", "2024-12-31")] }

/-- A request whose range selects no record: the start lies after the end. -/
def emptyRangeCtx : Ctx :=
  { params :=
      [("account_officer", "O1"), ("start_date", "2024-12-31"), ("end_date", "2024-01-01")] }

/-! ## Auxiliary facts -/

theorem sum_map_ite_eq_of_nodup {κ M : Type} [DecidableEq κ] [AddCommMonoid M] (a : M) (k : κ)
    (ks : List κ) (hnd : ks.Nodup) :
    (ks.map (fun k' => if k = k' then a else 0)).sum = if k ∈ ks then a else 0 := by
  induction ks with
  | nil => simp
  | cons x xs ih =>
    have hx : x ∉ xs := (List.nodup_cons.mp hnd).1
    have hxs : xs.Nodup := (List.nodup_cons.mp hnd).2
    rw [List.map_cons, List.sum_cons, ih hxs]
    by_cases h : k = x
    · subst h
      simp [hx]
    · have h' : ¬ x = k := fun e => h e.symm
      simp [h, h']

/-- Summing group by group visits exactly the rows whose key is one of the listed keys. -/
theorem sum_groupOf {α κ M : Type} [DecidableEq κ] [AddCommMonoid M] (key : α → κ) (f : α → M)
    (ks : List κ) (hnd : ks.Nodup) (rows : List α) :
    (ks.map (fun k => ((groupOf key rows k).map f).sum)).sum
      = ((rows.filter (fun r => decide (key r ∈ ks))).map f).sum := by
  induction rows with
  | nil => simp [groupOf]
  | cons r rs ih =>
    have hstep : (fun k => ((groupOf key (r :: rs) k).map f).sum)
        = fun k => (if key r = k then f r else 0) + ((groupOf key rs k).map f).sum := by
      funext k
      by_cases h : key r = k <;> simp [groupOf, List.filter_cons, h]
    rw [hstep, List.sum_map_add, ih, sum_map_ite_eq_of_nodup _ _ _ hnd]
    by_cases h : key r ∈ ks <;> simp [List.filter_cons, h]

theorem groupKeys_nodup {α κ : Type} [DecidableEq κ] (key : α → κ) (rows : List α) :
    (groupKeys key rows).Nodup := List.nodup_dedup _

theorem mem_groupKeys {α κ : Type} [DecidableEq κ] (key : α → κ) (rows : List α) (k : κ) :
    k ∈ groupKeys key rows ↔ ∃ r ∈ rows, key r = k := by
  simp [groupKeys]

/-- The groups of a `GROUP BY` partition the rows: group sums add up to the sum over all. -/
theorem sum_groups {α κ M : Type} [DecidableEq κ] [AddCommMonoid M] (key : α → κ) (f : α → M)
    (rows : List α) :
    ((groupKeys key rows).map (fun k => ((groupOf key rows k).map f).sum)).sum
      = (rows.map f).sum := by
  rw [sum_groupOf key f _ (groupKeys_nodup key rows)]
  congr 2
  apply List.filter_eq_self.mpr
  intro r hr
  simp only [decide_eq_true_eq]
  exact (mem_groupKeys key rows _).mpr ⟨r, hr, rfl⟩

theorem sqlCount_some {α β : Type} (col : α → β) (rows : List α) :
    sqlCount (fun r => some (col r)) rows = rows.length := by
  simp [sqlCount]

theorem length_eq_sum_ones {α : Type} (rows : List α) :
    rows.length = (rows.map (fun _ => (1 : Nat))).sum := by
  simp

theorem sample_valid : validRequest sampleDB sampleCtx "O1" ⟨2024, 1, 1⟩ ⟨2024, 12, 31⟩ :=
  ⟨by decide, by decide, by decide, by decide, by decide, by decide⟩

theorem emptyRange_valid :
    validRequest sampleDB emptyRangeCtx "O1" ⟨2024, 12, 31⟩ ⟨2024, 1, 1⟩ :=
  ⟨by decide, by decide, by decide, by decide, by decide, by decide⟩

theorem withDates_of_valid {α : Type} {db : DB} {c : Ctx} {officer : String} {s e : Date}
    (h : validRequest db c officer s e) (k : Date → Date → α) :
    withDates db (c.Query "start_date") (c.Query "end_date") k = some (k s e) := by
  obtain ⟨_, _, _, _, hs, he⟩ := h
  simp [withDates, hs, he]

theorem missingParameters_of_valid {db : DB} {c : Ctx} {officer : String} {s e : Date}
    (h : validRequest db c officer s e) :
    missingParameters (c.Query "account_officer") (c.Query "start_date") (c.Query "end_date")
      = false := by
  obtain ⟨ho, hne, hs, he, _, _⟩ := h
  simp [missingParameters, ho, hne, hs, he]

theorem GetTotalCountsClient_of_valid {db : DB} {c : Ctx} {officer : String} {s e : Date}
    (h : validRequest db c officer s e) :
    (GetTotalCountsClient db c).response = .json 200 (totalCountsClientRows db officer s e) := by
  simp only [GetTotalCountsClient, missingParameters_of_valid h, withDates_of_valid h]
  simp [h.1]

theorem statusCount_eq (db : DB) (officer : String) (s e : Date) :
    (statusCountRows db officer s e).map (fun r => r.Count)
      = (groupKeys (fun r => r.member_status) (matchingClients db officer s e)).map
          (fun k => ((groupOf (fun r : CustomerInfo => r.member_status)
            (matchingClients db officer s e) k).map (fun _ => (1 : Nat))).sum) := by
  simp [statusCountRows, sqlCount_some]

theorem toDays_sub_month_start (t : Date) :
    t.toDays - (DATE_TRUNC_month t).toDays = (t.day : Int) - 1 := by
  simp only [Date.toDays, DATE_TRUNC_month]
  push_cast
  ring

theorem weekCase_eq_specWeekLabel (t : Date) (ht : 1 ≤ t.day) :
    weekCase t = specWeekLabel (t.day - 1) := by
  have h := toDays_sub_month_start t
  simp only [weekCase, specWeekLabel, INTERVAL_weeks]
  split_ifs <;> first | rfl | omega

/-! ## Status counts: the total row -/

/-- C1: for a request with officer and both dates present, the status counts report is the
per-status rows followed by the row labelled Total Client, whose Count is the sum of the
Counts of the per-status rows; the per-status rows carry pairwise different statuses and
each counts the matching clients of its status. -/
theorem totalClient_count_eq_sum (db : DB) (c : Ctx) (officer : String) (s e : Date)
    (h : validRequest db c officer s e) :
    (GetTotalCountsClient db c).response
        = .json 200 (statusCountRows db officer s e ++ [totalClientRow db officer s e]) ∧
      (totalClientRow db officer s e).Particulars = "Total Client" ∧
      (totalClientRow db officer s e).Count
        = ((statusCountRows db officer s e).map (fun r => r.Count)).sum ∧
      ((statusCountRows db officer s e).map (fun r => r.Particulars)).Nodup ∧
      ∀ r ∈ statusCountRows db officer s e,
        r.Count = ((matchingClients db officer s e).filter
          (fun ci => decide (ci.member_status = r.Particulars))).length ∧ 1 ≤ r.Count := by
  refine ⟨GetTotalCountsClient_of_valid h, rfl, ?_, ?_, ?_⟩
  · rw [statusCount_eq, sum_groups]
    simp [totalClientRow, sqlCountStar]
  · have : (statusCountRows db officer s e).map (fun r => r.Particulars)
        = groupKeys (fun r => r.member_status) (matchingClients db officer s e) := by
      simp [statusCountRows, Function.comp_def]
    rw [this]
    exact groupKeys_nodup _ _
  · intro r hr
    simp only [statusCountRows, List.mem_map] at hr
    obtain ⟨k, hk, rfl⟩ := hr
    obtain ⟨ci, hci, hkey⟩ := (mem_groupKeys _ _ _).mp hk
    refine ⟨by simp [sqlCount_some, groupOf], ?_⟩
    simp only [sqlCount_some, groupOf]
    exact List.length_pos_of_mem (List.mem_filter.mpr ⟨hci, by simpa using hkey⟩)

/-- The scenario of C1: three clients of statuses Active, Active, Inactive give the rows
(Active, 2), (Inactive, 1), (Total Client, 3). -/
theorem totalClient_count_eq_sum_witness :
    validRequest sampleDB sampleCtx "O1" ⟨2024, 1, 1⟩ ⟨2024, 12, 31⟩ ∧
      (GetTotalCountsClient sampleDB sampleCtx).response
        = .json 200 [⟨"Active", 2⟩, ⟨"Inactive", 1⟩, ⟨"Total Client", 3⟩] ∧
      (totalClientRow sampleDB "O1" ⟨2024, 1, 1⟩ ⟨2024, 12, 31⟩).Count
        = ((statusCountRows sampleDB "O1" ⟨2024, 1, 1⟩ ⟨2024, 12, 31⟩).map
            (fun r => r.Count)).sum :=
  ⟨sample_valid, by decide,
    (totalClient_count_eq_sum sampleDB sampleCtx "O1" ⟨2024, 1, 1⟩ ⟨2024, 12, 31⟩
      sample_valid).2.2.1⟩

/-! ## Week bucketing -/

/-- C2: for a client row and a loan row with well-formed governing dates, the day-number
offset of the date from the first day of its own month is its day of month less one, and the
label the weekly status statement and the weekly capital statement give the row is the
label of the specification at that offset (Week 1 for 0..6, Week 2 for 7..13, Week 3 for
14..20, Week 4 for 21..27, Week 5 from 28 on), whatever the year, the month and the queried
range. -/
theorem week_label_by_day_offset (ci : CustomerInfo) (la : LoanAcct)
    (hci : 1 ≤ ci.l_date_recog.day) (hla : 1 ≤ la.opening_date.day) :
    ci.l_date_recog.toDays - (DATE_TRUNC_month ci.l_date_recog).toDays
        = ((ci.l_date_recog.day - 1 : Nat) : Int) ∧
      la.opening_date.toDays - (DATE_TRUNC_month la.opening_date).toDays
        = ((la.opening_date.day - 1 : Nat) : Int) ∧
      weekOfRecog ci = specWeekLabel (ci.l_date_recog.day - 1) ∧
      weekOfOpening la = specWeekLabel (la.opening_date.day - 1) := by
  refine ⟨?_, ?_, weekCase_eq_specWeekLabel _ hci, weekCase_eq_specWeekLabel _ hla⟩
  · rw [toDays_sub_month_start]; omega
  · rw [toDays_sub_month_start]; omega

/-- The boundary offsets of C2: offsets 0 and 6 fall in week 1, 7 in week 2, 27 in week 4
and 28 in week 5, in a month of 28 days as in longer ones. -/
theorem week_label_by_day_offset_witness :
    1 ≤ (sampleClient "a" "Active" "C1" 28).l_date_recog.day ∧
      1 ≤ (sampleLoan none none none "OK" 0 29).opening_date.day ∧
      weekOfRecog (sampleClient "a" "Active" "C1" 28) = "Week 4" ∧
      weekOfOpening (sampleLoan none none none "OK" 0 29) = "Week 5" ∧
      weekCase ⟨2023, 2, 1⟩ = "Week 1" ∧ weekCase ⟨2023, 2, 7⟩ = "Week 1" ∧
      weekCase ⟨2023, 2, 8⟩ = "Week 2" ∧ weekCase ⟨2023, 2, 28⟩ = "Week 4" ∧
      weekCase ⟨2024, 2, 29⟩ = "Week 5" ∧ weekCase ⟨2024, 1, 29⟩ = "Week 5" := by
  have h := week_label_by_day_offset (sampleClient "a" "Active" "C1" 28)
    (sampleLoan none none none "OK" 0 29) (by decide) (by decide)
  refine ⟨by decide, by decide, ?_, ?_, by decide, by decide, by decide, by decide, by decide,
    by decide⟩
  · rw [h.2.2.1]; decide
  · rw [h.2.2.2]; decide

theorem mem_joinClient (las : List LoanAcct) (cj : CustomerInfo) (r : Joined) :
    r ∈ joinClient las cj ↔
      r.1 = cj ∧ ((r.2 = none ∧ loansOf las cj = []) ∨ ∃ la ∈ loansOf las cj, r.2 = some la) := by
  obtain ⟨ci, x⟩ := r
  unfold joinClient
  cases hl : loansOf las cj with
  | nil =>
    simp only [List.mem_singleton, Prod.mk.injEq, List.not_mem_nil, false_and, exists_false,
      or_false, and_true]
  | cons a rest =>
    simp only [List.mem_map, Prod.mk.injEq]
    constructor
    · rintro ⟨l, hlm, rfl, rfl⟩
      exact ⟨rfl, Or.inr ⟨l, hlm, rfl⟩⟩
    · rintro ⟨rfl, h | ⟨l, hlm, rfl⟩⟩
      · exact absurd h.2 (by simp)
      · exact ⟨l, hlm, rfl, rfl⟩

theorem mem_leftJoinLoans (cis : List CustomerInfo) (las : List LoanAcct) (r : Joined) :
    r ∈ leftJoinLoans cis las ↔
      r.1 ∈ cis ∧ ((r.2 = none ∧ loansOf las r.1 = []) ∨ ∃ la ∈ loansOf las r.1, r.2 = some la) := by
  simp only [leftJoinLoans, List.mem_flatten, List.mem_map]
  constructor
  · rintro ⟨l, ⟨cj, hcj, rfl⟩, hr⟩
    obtain ⟨h1, h2⟩ := (mem_joinClient las cj r).mp hr
    rw [h1]
    exact ⟨hcj, h2⟩
  · rintro ⟨h1, h2⟩
    exact ⟨_, ⟨r.1, h1, rfl⟩, (mem_joinClient las r.1 r).mpr ⟨rfl, h2⟩⟩

theorem mem_loansOf (las : List LoanAcct) (ci : CustomerInfo) (la : LoanAcct) :
    la ∈ loansOf las ci ↔ la ∈ las ∧ la.customer = some ci.t_id := by
  simp [loansOf]

theorem mem_matchingJoined (db : DB) (officer : String) (s e : Date) (r : Joined) :
    r ∈ matchingJoined db officer s e ↔
      r.1 ∈ matchingClients db officer s e ∧
        ((r.2 = none ∧ loansOf db.loan_acct r.1 = []) ∨
          ∃ la ∈ loansOf db.loan_acct r.1, r.2 = some la) := by
  simp only [matchingJoined, matchingClients, List.mem_filter, mem_leftJoinLoans]
  tauto

theorem mem_centerGroup (db : DB) (officer : String) (s e : Date) (name : String) (r : Joined) :
    r ∈ centerGroup db officer s e name ↔
      r ∈ matchingJoined db officer s e ∧ r.1.center_name = name := by
  simp [centerGroup, groupOf]

theorem mem_distinctValues {α : Type} (col : α → Option String) (rows : List α) (v : String) :
    v ∈ distinctValues col rows ↔ ∃ r ∈ rows, col r = some v := by
  simp [distinctValues]

theorem count_distinctValues_le_one {α : Type} (col : α → Option String) (rows : List α)
    (v : String) : (distinctValues col rows).count v ≤ 1 :=
  List.nodup_iff_count_le_one.mp (List.nodup_dedup _) v

theorem count_distinctValues_eq_one {α : Type} (col : α → Option String) (rows : List α)
    (v : String) (r : α) (hr : r ∈ rows) (hv : col r = some v) :
    (distinctValues col rows).count v = 1 :=
  List.count_eq_one_of_mem (List.nodup_dedup _) ((mem_distinctValues _ _ _).mpr ⟨r, hr, hv⟩)

theorem withLoanId_eq_some (r : Joined) (v : String) :
    withLoanId r = some v ↔ r.1.t_id = v ∧ ∃ la, r.2 = some la ∧ la.customer.isSome := by
  obtain ⟨ci, x⟩ := r
  cases x with
  | none => simp [withLoanId, caseWhen, Joined.la_customer]
  | some la =>
    cases hc : la.customer <;> simp [withLoanId, caseWhen, Joined.la_customer, hc]

theorem GetCenterSummary_of_valid {db : DB} {c : Ctx} {officer : String} {s e : Date}
    (h : validRequest db c officer s e) :
    (GetCenterSummary db c).response = .json 200 (centerSummaryRows db officer s e) := by
  simp only [GetCenterSummary, missingParameters_of_valid h, withDates_of_valid h]
  simp [h.1]

/-- The joined row of a matching client without loan rows. -/
theorem unjoined_row_mem {db : DB} {officer : String} {s e : Date} {ci : CustomerInfo}
    (hci : ci ∈ matchingClients db officer s e)
    (hno : ∀ la ∈ db.loan_acct, la.customer ≠ some ci.t_id) :
    ((ci, none) : Joined) ∈ matchingJoined db officer s e := by
  refine (mem_matchingJoined db officer s e _).mpr ⟨hci, Or.inl ⟨rfl, ?_⟩⟩
  apply List.eq_nil_iff_forall_not_mem.mpr
  intro la hla
  obtain ⟨h1, h2⟩ := (mem_loansOf _ _ _).mp hla
  exact hno la h1 h2

theorem not_withLoan_of_no_loan {db : DB} {officer : String} {s e : Date} {ci : CustomerInfo}
    (hno : ∀ la ∈ db.loan_acct, la.customer ≠ some ci.t_id) (r : Joined)
    (hr : r ∈ matchingJoined db officer s e) : withLoanId r ≠ some ci.t_id := by
  intro hw
  obtain ⟨hid, la, hla, _⟩ := (withLoanId_eq_some r _).mp hw
  obtain ⟨_, hj⟩ := (mem_matchingJoined db officer s e r).mp hr
  rcases hj with ⟨hnone, _⟩ | ⟨la', hla', hsome⟩
  · rw [hla] at hnone; exact absurd hnone (by simp)
  · rw [hla] at hsome
    cases hsome
    obtain ⟨h1, h2⟩ := (mem_loansOf _ _ _).mp hla'
    exact hno la h1 (by rw [h2, hid])

/-! ## Center summary: clients without loans -/

/-- C3: a matching client with no loan account row whose customer is the client's identifier
is counted once among the distinct identifiers of the metric w/o Loans and not at all among
those of w/ Loans, both in the group of its center (whose row is in the report) and in the
rows behind the Total Centers row; each metric is the number of distinct identifiers, so a
matching client joined to one or several loan rows is counted once in No of Clients and in
w/ Loans and at most once in the other metrics. -/
theorem client_without_loan_counted_once (db : DB) (c : Ctx) (officer : String) (s e : Date)
    (h : validRequest db c officer s e) (ci : CustomerInfo)
    (hci : ci ∈ matchingClients db officer s e)
    (hno : ∀ la ∈ db.loan_acct, la.customer ≠ some ci.t_id) :
    (GetCenterSummary db c).response
        = .json 200 (centerRows db officer s e ++ [totalCentersRow db officer s e]) ∧
      centerAggregates ci.center_name (centerGroup db officer s e ci.center_name)
        ∈ centerRows db officer s e ∧
      totalCentersRow db officer s e
        = centerAggregates "Total Centers" (matchingJoined db officer s e) ∧
      (∀ (name : String) (g : List Joined),
        (centerAggregates name g).WithLoans = (distinctValues withLoanId g).length ∧
        (centerAggregates name g).WithoutLoans = (distinctValues withoutLoanId g).length) ∧
      (∀ g ∈ [centerGroup db officer s e ci.center_name, matchingJoined db officer s e],
        (distinctValues withoutLoanId g).count ci.t_id = 1 ∧
        (distinctValues withLoanId g).count ci.t_id = 0) ∧
      (∀ cj ∈ matchingClients db officer s e, loansOf db.loan_acct cj ≠ [] →
        ∀ g ∈ [centerGroup db officer s e cj.center_name, matchingJoined db officer s e],
          (distinctValues (fun r : Joined => some r.1.t_id) g).count cj.t_id = 1 ∧
          (distinctValues withLoanId g).count cj.t_id = 1 ∧
          (distinctValues withoutLoanId g).count cj.t_id ≤ 1 ∧
          (distinctValues pastDueId g).count cj.t_id ≤ 1) := by
  have hrow := unjoined_row_mem hci hno
  have hgrp : ((ci, none) : Joined) ∈ centerGroup db officer s e ci.center_name :=
    (mem_centerGroup _ _ _ _ _ _).mpr ⟨hrow, rfl⟩
  refine ⟨GetCenterSummary_of_valid h, ?_, rfl, fun _ _ => ⟨rfl, rfl⟩, ?_, ?_⟩
  · exact List.mem_map.mpr ⟨ci.center_name, (mem_groupKeys _ _ _).mpr ⟨_, hrow, rfl⟩, rfl⟩
  · intro g hg
    simp only [List.mem_cons, List.mem_singleton, List.not_mem_nil, or_false] at hg
    have hsub : ∀ r ∈ g, r ∈ matchingJoined db officer s e := by
      rcases hg with rfl | rfl
      · exact fun r hr => ((mem_centerGroup _ _ _ _ _ _).mp hr).1
      · exact fun r hr => hr
    have hmem : ((ci, none) : Joined) ∈ g := by
      rcases hg with rfl | rfl
      · exact hgrp
      · exact hrow
    refine ⟨count_distinctValues_eq_one _ _ _ _ hmem (by simp [withoutLoanId, caseWhen, Joined.la_customer]), ?_⟩
    apply List.count_eq_zero_of_not_mem
    intro hm
    obtain ⟨r, hr, hw⟩ := (mem_distinctValues _ _ _).mp hm
    exact not_withLoan_of_no_loan hno r (hsub r hr) hw
  · intro cj hcj hl g hg
    obtain ⟨la, hla⟩ := List.exists_mem_of_ne_nil _ hl
    have hjr : ((cj, some la) : Joined) ∈ matchingJoined db officer s e :=
      (mem_matchingJoined db officer s e _).mpr ⟨hcj, Or.inr ⟨la, hla, rfl⟩⟩
    have hmem : ((cj, some la) : Joined) ∈ g := by
      simp only [List.mem_cons, List.mem_singleton, List.not_mem_nil, or_false] at hg
      rcases hg with rfl | rfl
      · exact (mem_centerGroup _ _ _ _ _ _).mpr ⟨hjr, rfl⟩
      · exact hjr
    have hcust : la.customer = some cj.t_id := ((mem_loansOf _ _ _).mp hla).2
    refine ⟨count_distinctValues_eq_one _ _ _ _ hmem rfl,
      count_distinctValues_eq_one _ _ _ _ hmem ?_,
      count_distinctValues_le_one _ _ _, count_distinctValues_le_one _ _ _⟩
    simp [withLoanId, caseWhen, Joined.la_customer, hcust]

/-- Client b of the sample store has no loan row; client a has two. -/
theorem client_without_loan_counted_once_witness :
    validRequest sampleDB sampleCtx "O1" ⟨2024, 1, 1⟩ ⟨2024, 12, 31⟩ ∧
      sampleClient "b" "Active" "C1" 8 ∈ matchingClients sampleDB "O1" ⟨2024, 1, 1⟩ ⟨2024, 12, 31⟩ ∧
      (∀ la ∈ sampleDB.loan_acct, la.customer ≠ some (sampleClient "b" "Active" "C1" 8).t_id) ∧
      (GetCenterSummary sampleDB sampleCtx).response
        = .json 200 [⟨"C1", 2, 1, 1, 1⟩, ⟨"C2", 1, 0, 1, 0⟩, ⟨"Total Centers", 3, 1, 2, 1⟩] ∧
      (distinctValues withoutLoanId
        (centerGroup sampleDB "O1" ⟨2024, 1, 1⟩ ⟨2024, 12, 31⟩ "C1")).count "b" = 1 :=
  ⟨sample_valid, by decide, by decide, by decide,
    ((client_without_loan_counted_once sampleDB sampleCtx "O1" ⟨2024, 1, 1⟩ ⟨2024, 12, 31⟩
      sample_valid (sampleClient "b" "Active" "C1" 8) (by decide) (by decide)).2.2.2.2.1
        _ (List.mem_cons_self _ _)).1⟩


theorem sqlCount_caseWhen {α β : Type} (cond : α → Bool) (val : α → β) (rows : List α) :
    sqlCount (caseWhen cond val) rows = rows.countP cond := by
  unfold sqlCount
  congr 1
  funext r
  by_cases h : cond r <;> simp [caseWhen, h]

theorem bracketSum_eq_countP (today : Date) (l : List CustomerInfo) :
    bracketSum (ageRowOf today l)
      = l.countP (fun ci => decide (18 ≤ ageYears today ci.date_of_birth)) := by
  simp only [bracketSum, ageRowOf, countAgeBetween, countAgeFrom, sqlCount_caseWhen]
  induction l with
  | nil => simp
  | cons x xs ih =>
    simp only [List.countP_cons]
    rw [← ih]
    generalize ageYears today x.date_of_birth = a
    simp only [Bool.and_eq_true, decide_eq_true_eq, ge_iff_le]
    split_ifs <;> omega

theorem GetAgeGroupCounts_of_valid {db : DB} {c : Ctx} {officer : String} {s e : Date}
    (h : validRequest db c officer s e) :
    (GetAgeGroupCounts db c).response = .json 200 (ageGroupCountsRow db officer s e) := by
  simp only [GetAgeGroupCounts, missingParameters_of_valid h, withDates_of_valid h]
  simp [h.1]

/-! ## Age brackets -/

/-- C4: the age bracket report has Total the number of matching clients, the seven bracket
counts sum to at most Total, with equality exactly when every matching client is at least 18
whole years old, and a single client adds at most one to the sum of the brackets. -/
theorem age_brackets_le_total (db : DB) (c : Ctx) (officer : String) (s e : Date)
    (h : validRequest db c officer s e) :
    (GetAgeGroupCounts db c).response = .json 200 (ageGroupCountsRow db officer s e) ∧
      (ageGroupCountsRow db officer s e).Total = (matchingClients db officer s e).length ∧
      bracketSum (ageGroupCountsRow db officer s e) ≤ (ageGroupCountsRow db officer s e).Total ∧
      (bracketSum (ageGroupCountsRow db officer s e) = (ageGroupCountsRow db officer s e).Total ↔
        ∀ ci ∈ matchingClients db officer s e, 18 ≤ ageYears db.today ci.date_of_birth) ∧
      ∀ ci : CustomerInfo, bracketSum (ageRowOf db.today [ci]) ≤ 1 := by
  have hrow : ageGroupCountsRow db officer s e
      = ageRowOf db.today (matchingClients db officer s e) := rfl
  refine ⟨GetAgeGroupCounts_of_valid h, rfl, ?_, ?_, ?_⟩
  · rw [hrow, bracketSum_eq_countP]
    exact List.countP_le_length _
  · rw [hrow, bracketSum_eq_countP]
    simp only [ageRowOf, sqlCountStar]
    rw [List.countP_eq_length]
    simp
  · intro ci
    rw [bracketSum_eq_countP]
    exact (List.countP_le_length _).trans (by simp)


/-- Clients aged 34, 14 and 83: one in bracket 30-39, one in 80+, the minor in none. -/
theorem age_brackets_le_total_witness :
    validRequest ageDB sampleCtx "O1" ⟨2024, 1, 1⟩ ⟨2024, 12, 31⟩ ∧
      (GetAgeGroupCounts ageDB sampleCtx).response = .json 200 ⟨0, 1, 0, 0, 0, 0, 1, 3⟩ ∧
      bracketSum (ageGroupCountsRow ageDB "O1" ⟨2024, 1, 1⟩ ⟨2024, 12, 31⟩)
        ≤ (ageGroupCountsRow ageDB "O1" ⟨2024, 1, 1⟩ ⟨2024, 12, 31⟩).Total :=
  ⟨sample_valid, by decide,
    (age_brackets_le_total ageDB sampleCtx "O1" ⟨2024, 1, 1⟩ ⟨2024, 12, 31⟩
      sample_valid).2.2.1⟩


theorem missingParameters_iff (c : Ctx) :
    missingParameters (c.Query "account_officer") (c.Query "start_date") (c.Query "end_date")
      = true ↔ someParameterEmpty c := by
  simp [missingParameters, someParameterEmpty, or_assoc]

theorem GetTotalCountsClient_rejects : RejectsExactlyMissing GetTotalCountsClient := by
  intro db c
  rw [← missingParameters_iff]
  cases hm : missingParameters (c.Query "account_officer") (c.Query "start_date")
    (c.Query "end_date") with
  | true => simp [GetTotalCountsClient, hm]
  | false =>
    simp only [GetTotalCountsClient, hm, Bool.false_eq_true, if_false, false_iff, false_imp_iff, and_true]
    split <;> simp

theorem GetLoanAccountTotals_rejects : RejectsExactlyMissing GetLoanAccountTotals := by
  intro db c
  rw [← missingParameters_iff]
  cases hm : missingParameters (c.Query "account_officer") (c.Query "start_date")
    (c.Query "end_date") with
  | true => simp [GetLoanAccountTotals, hm]
  | false =>
    simp only [GetLoanAccountTotals, hm, Bool.false_eq_true, if_false, false_iff, false_imp_iff, and_true]
    split
    · simp
    · split <;> simp

theorem GetCapitalBuildUp_rejects : RejectsExactlyMissing GetCapitalBuildUp := by
  intro db c
  rw [← missingParameters_iff]
  cases hm : missingParameters (c.Query "account_officer") (c.Query "start_date")
    (c.Query "end_date") with
  | true => simp [GetCapitalBuildUp, hm]
  | false =>
    simp only [GetCapitalBuildUp, hm, Bool.false_eq_true, if_false, false_iff, false_imp_iff, and_true]
    split <;> simp

theorem GetAgeGroupCounts_rejects : RejectsExactlyMissing GetAgeGroupCounts := by
  intro db c
  rw [← missingParameters_iff]
  cases hm : missingParameters (c.Query "account_officer") (c.Query "start_date")
    (c.Query "end_date") with
  | true => simp [GetAgeGroupCounts, hm]
  | false =>
    simp only [GetAgeGroupCounts, hm, Bool.false_eq_true, if_false, false_iff, false_imp_iff, and_true]
    split <;> simp

theorem GetProductCounts_rejects : RejectsExactlyMissing GetProductCounts := by
  intro db c
  rw [← missingParameters_iff]
  cases hm : missingParameters (c.Query "account_officer") (c.Query "start_date")
    (c.Query "end_date") with
  | true => simp [GetProductCounts, hm]
  | false =>
    simp only [GetProductCounts, hm, Bool.false_eq_true, if_false, false_iff, false_imp_iff, and_true]
    split
    · simp
    · split <;> simp

theorem GetCenterSummary_rejects : RejectsExactlyMissing GetCenterSummary := by
  intro db c
  rw [← missingParameters_iff]
  cases hm : missingParameters (c.Query "account_officer") (c.Query "start_date")
    (c.Query "end_date") with
  | true => simp [GetCenterSummary, hm]
  | false =>
    simp only [GetCenterSummary, hm, Bool.false_eq_true, if_false, false_iff, false_imp_iff, and_true]
    split <;> simp

theorem GetWeeklyCustomerCount_rejects : RejectsExactlyMissing GetWeeklyCustomerCount := by
  intro db c
  rw [← missingParameters_iff]
  cases hm : missingParameters (c.Query "account_officer") (c.Query "start_date")
    (c.Query "end_date") with
  | true => simp [GetWeeklyCustomerCount, hm]
  | false =>
    simp only [GetWeeklyCustomerCount, hm, Bool.false_eq_true, if_false, false_iff, false_imp_iff, and_true]
    split <;> simp

theorem GetWeeklyCapitalBuildUp_rejects : RejectsExactlyMissing GetWeeklyCapitalBuildUp := by
  intro db c
  rw [← missingParameters_iff]
  cases hm : missingParameters (c.Query "account_officer") (c.Query "start_date")
    (c.Query "end_date") with
  | true => simp [GetWeeklyCapitalBuildUp, hm]
  | false =>
    simp only [GetWeeklyCapitalBuildUp, hm, Bool.false_eq_true, if_false, false_iff, false_imp_iff, and_true]
    split
    · simp
    · split <;> simp

theorem GetClients_rejects : RejectsExactlyMissing GetClients := by
  intro db c
  rw [← missingParameters_iff]
  cases hm : missingParameters (c.Query "account_officer") (c.Query "start_date")
    (c.Query "end_date") with
  | true => simp [GetClients, hm]
  | false =>
    simp only [GetClients, hm, Bool.false_eq_true, if_false, false_iff, false_imp_iff, and_true]
    split <;> simp

/-! ## Parameter validation -/

/-- C5: each of the nine handlers answers 400 with the message Missing required parameters
if and only if the officer id, the start date or the end date of the request is the empty
string, and in that case it issues no statement to the store. -/
theorem handlers_reject_exactly_missing :
    RejectsExactlyMissing GetTotalCountsClient ∧ RejectsExactlyMissing GetLoanAccountTotals ∧
      RejectsExactlyMissing GetCapitalBuildUp ∧ RejectsExactlyMissing GetAgeGroupCounts ∧
      RejectsExactlyMissing GetProductCounts ∧ RejectsExactlyMissing GetCenterSummary ∧
      RejectsExactlyMissing GetWeeklyCustomerCount ∧
      RejectsExactlyMissing GetWeeklyCapitalBuildUp ∧ RejectsExactlyMissing GetClients :=
  ⟨GetTotalCountsClient_rejects, GetLoanAccountTotals_rejects, GetCapitalBuildUp_rejects,
    GetAgeGroupCounts_rejects, GetProductCounts_rejects, GetCenterSummary_rejects,
    GetWeeklyCustomerCount_rejects, GetWeeklyCapitalBuildUp_rejects, GetClients_rejects⟩


/-- A request without parameters is rejected by the roster handler before any statement. -/
theorem handlers_reject_exactly_missing_witness :
    GetClients sampleDB ⟨[]⟩
      = { response := .error 400 "Missing required parameters", issued := [] } ∧
      (GetClients sampleDB ⟨[]⟩).issued = [] :=
  ⟨by decide, (handlers_reject_exactly_missing.2.2.2.2.2.2.2.2 sampleDB ⟨[]⟩).2 (Or.inl rfl)⟩


theorem GetLoanAccountTotals_of_valid {db : DB} {c : Ctx} {officer : String} {s e : Date}
    (h : validRequest db c officer s e) :
    (GetLoanAccountTotals db c).response
      = if (loanAccountTotalsRows db officer s e).all (fun r => float64InRange r.Amount) then
          .json 200 ((loanAccountTotalsRows db officer s e).map scanLoanAccountResult)
        else .error 500 "Failed to get loan account totals" := by
  obtain ⟨ho, hrest⟩ := h
  subst ho
  have h : validRequest db c (c.Query "account_officer") s e := ⟨rfl, hrest⟩
  simp only [GetLoanAccountTotals, missingParameters_of_valid h, withDates_of_valid h,
    Bool.false_eq_true, if_false]
  split <;> rfl

theorem GetWeeklyCapitalBuildUp_of_valid {db : DB} {c : Ctx} {officer : String} {s e : Date}
    (h : validRequest db c officer s e) :
    (GetWeeklyCapitalBuildUp db c).response
      = match scanRows scanWeeklyCapitalBuildUp (weeklyCapitalBuildUpRows db officer s e) with
        | none => .error 500 "Failed to parse weekly capital build-up total"
        | some results => .json 200 results := by
  obtain ⟨ho, hrest⟩ := h
  subst ho
  have h : validRequest db c (c.Query "account_officer") s e := ⟨rfl, hrest⟩
  simp only [GetWeeklyCapitalBuildUp, missingParameters_of_valid h, withDates_of_valid h,
    Bool.false_eq_true, if_false]
  split <;> rfl

theorem capitalLoans_eq (db : DB) (officer : String) (s e : Date) :
    capitalLoans db officer s e
      = (matchingLoans db officer s e).filter (fun r => r.bill_type.isSome) := by
  simp only [capitalLoans, matchingLoans, List.filter_filter]
  congr 1
  funext la
  simp only [capitalWhere, loanWhere]
  cases decide (la.account_officer = officer) <;> cases la.bill_type.isSome <;>
    cases between la.opening_date s e <;> rfl

/-- The exact amounts of the groups with a bill type add up to the negated balance sum of the
selected loan accounts that have a bill type. -/
theorem loanTotals_assigned_sum (db : DB) (officer : String) (s e : Date) :
    (((loanAccountTotalsRows db officer s e).filter (fun r => r.Particulars.isSome)).map
        (fun r => r.Amount)).sum
      = ((capitalLoans db officer s e).map (fun r => r.online_actual_bal)).sum * -1 := by
  have hnd : ((groupKeys (fun r : LoanAcct => r.bill_type)
      (matchingLoans db officer s e)).filter (fun k => k.isSome)).Nodup :=
    (groupKeys_nodup _ _).filter _
  have hrows : ((loanAccountTotalsRows db officer s e).filter
      (fun r => r.Particulars.isSome)).map (fun r => r.Amount)
      = ((groupKeys (fun r : LoanAcct => r.bill_type)
          (matchingLoans db officer s e)).filter (fun k => k.isSome)).map
        (fun k => ((groupOf (fun r : LoanAcct => r.bill_type)
          (matchingLoans db officer s e) k).map (fun r => r.online_actual_bal)).sum * -1) := by
    simp only [loanAccountTotalsRows, List.filter_map, List.map_map]
    rfl
  rw [hrows, List.sum_map_mul_right, sum_groupOf _ _ _ hnd, capitalLoans_eq]
  congr 3
  apply List.filter_congr
  intro r hr
  have hk : r.bill_type ∈ groupKeys (fun r : LoanAcct => r.bill_type)
      (matchingLoans db officer s e) := (mem_groupKeys _ _ _).mpr ⟨r, hr, rfl⟩
  cases hb : r.bill_type.isSome <;> simp [List.mem_filter, hk, hb]

theorem weeklyCapital_sum (db : DB) (officer : String) (s e : Date) :
    ((weeklyCapitalBuildUpRows db officer s e).map (fun r => r.TotalCapital)).sum
      = ((capitalLoans db officer s e).map (fun r => r.online_actual_bal)).sum * -1 := by
  have hperm := List.perm_insertionSort (fun a b : String => textLe a b = true)
    (groupKeys weekOfOpening (capitalLoans db officer s e))
  have hnd : ((groupKeys weekOfOpening (capitalLoans db officer s e)).insertionSort
      (fun a b => textLe a b = true)).Nodup := hperm.nodup_iff.mpr (groupKeys_nodup _ _)
  have hrows : (weeklyCapitalBuildUpRows db officer s e).map (fun r => r.TotalCapital)
      = ((groupKeys weekOfOpening (capitalLoans db officer s e)).insertionSort
          (fun a b => textLe a b = true)).map
        (fun w => ((groupOf weekOfOpening (capitalLoans db officer s e) w).map
          (fun r => r.online_actual_bal)).sum * -1) := by
    simp only [weeklyCapitalBuildUpRows, List.map_map]
    rfl
  rw [hrows, List.sum_map_mul_right, sum_groupOf _ _ _ hnd]
  congr 3
  apply List.filter_eq_self.mpr
  intro r hr
  simp only [decide_eq_true_eq]
  exact hperm.mem_iff.mpr ((mem_groupKeys _ _ _).mpr ⟨r, hr, rfl⟩)

theorem GetWeeklyCustomerCount_of_valid {db : DB} {c : Ctx} {officer : String} {s e : Date}
    (h : validRequest db c officer s e) :
    (GetWeeklyCustomerCount db c).response
      = .json 200 (weeklyCustomerCountRows db officer s e) := by
  simp only [GetWeeklyCustomerCount, missingParameters_of_valid h, withDates_of_valid h]
  simp [h.1]

theorem length_filter_le_one_of_nodup_map {α β : Type} [DecidableEq β] (f : α → β) (l : List α)
    (hnd : (l.map f).Nodup) (b : β) : (l.filter (fun a => decide (f a = b))).length ≤ 1 := by
  have h := List.nodup_iff_count_le_one.mp hnd b
  rw [List.count, List.countP_map, List.countP_eq_length_filter] at h
  have : (fun a => decide (f a = b)) = ((fun x => x == b) ∘ f) := by
    funext a
    by_cases hab : f a = b <;> simp [hab]
  rw [this]
  exact h

theorem weeklyTotal_weeks (db : DB) (officer : String) (s e : Date) :
    (weeklyTotalRows db officer s e).map (fun r => r.Week)
      = groupKeys weekOfRecog (matchingClients db officer s e) := by
  simp [weeklyTotalRows, Function.comp_def]

theorem mem_weeklyTotalRows (db : DB) (officer : String) (s e : Date) (t : WeeklyCount) :
    t ∈ weeklyTotalRows db officer s e ↔
      (∃ ci ∈ matchingClients db officer s e, weekOfRecog ci = t.Week) ∧
        t = { Particulars := "Total Client", Week := t.Week,
              Count := (groupOf weekOfRecog (matchingClients db officer s e) t.Week).length } := by
  simp only [weeklyTotalRows, List.mem_map, mem_groupKeys, sqlCountStar]
  constructor
  · rintro ⟨w, hw, rfl⟩
    exact ⟨hw, rfl⟩
  · rintro ⟨hw, ht⟩
    exact ⟨t.Week, hw, ht.symm⟩

theorem mem_weeklyStatusRows (db : DB) (officer : String) (s e : Date) (r : WeeklyCount) :
    r ∈ weeklyStatusRows db officer s e ↔
      (∃ ci ∈ matchingClients db officer s e,
          ci.member_status = r.Particulars ∧ weekOfRecog ci = r.Week) ∧
        r.Count = (groupOf (fun x : CustomerInfo => (x.member_status, weekOfRecog x))
          (matchingClients db officer s e) (r.Particulars, r.Week)).length := by
  simp only [weeklyStatusRows, List.mem_map, mem_groupKeys, sqlCount_some]
  constructor
  · rintro ⟨k, ⟨ci, hci, rfl⟩, rfl⟩
    exact ⟨⟨ci, hci, rfl, rfl⟩, rfl⟩
  · rintro ⟨⟨ci, hci, h1, h2⟩, hc⟩
    refine ⟨(r.Particulars, r.Week), ⟨ci, hci, by rw [h1, h2]⟩, ?_⟩
    cases r
    simp only at hc
    simp [hc]

theorem weeklyStatus_sum (db : DB) (officer : String) (s e : Date) (W : String) :
    (((weeklyStatusRows db officer s e).filter (fun r => decide (r.Week = W))).map
        (fun r => r.Count)).sum
      = (groupOf weekOfRecog (matchingClients db officer s e) W).length := by
  have hnd : ((groupKeys (fun x : CustomerInfo => (x.member_status, weekOfRecog x))
      (matchingClients db officer s e)).filter (fun k => decide (k.2 = W))).Nodup :=
    (groupKeys_nodup _ _).filter _
  have hrows : ((weeklyStatusRows db officer s e).filter (fun r => decide (r.Week = W))).map
        (fun r => r.Count)
      = ((groupKeys (fun x : CustomerInfo => (x.member_status, weekOfRecog x))
          (matchingClients db officer s e)).filter (fun k => decide (k.2 = W))).map
        (fun k => ((groupOf (fun x : CustomerInfo => (x.member_status, weekOfRecog x))
          (matchingClients db officer s e) k).map (fun _ => (1 : Nat))).sum) := by
    simp only [weeklyStatusRows, List.filter_map, List.map_map, sqlCount_some]
    simp [Function.comp_def]
  rw [hrows, sum_groupOf _ _ _ hnd, ← length_eq_sum_ones, groupOf]
  congr 1
  apply List.filter_congr
  intro r hr
  have hk : (r.member_status, weekOfRecog r)
      ∈ groupKeys (fun x : CustomerInfo => (x.member_status, weekOfRecog x))
        (matchingClients db officer s e) := (mem_groupKeys _ _ _).mpr ⟨r, hr, rfl⟩
  by_cases hb : weekOfRecog r = W
  · subst hb
    simp [List.mem_filter, hk]
  · simp [List.mem_filter, hb]

/-! ## Weekly status counts: the total rows -/

/-- C7: the weekly status report is the per-status rows and the Total Client rows sorted
together; for every week label W a Total Client row of week W is present exactly when a
per-status row of week W is, there is at most one Total Client row of week W, and its Count
is the sum of the Counts of the per-status rows of week W.  Per-status rows carry the status
of a matching client, so when no matching client has the status text Total Client the rows
labelled Total Client are exactly the total rows. -/
theorem weekly_total_rows (db : DB) (c : Ctx) (officer : String) (s e : Date)
    (h : validRequest db c officer s e) (W : String) :
    (GetWeeklyCustomerCount db c).response
        = .json 200 ((weeklyStatusRows db officer s e ++ weeklyTotalRows db officer s e).insertionSort
            (fun a b => weeklyCountOrder a b = true)) ∧
      ((weeklyStatusRows db officer s e ++ weeklyTotalRows db officer s e).insertionSort
          (fun a b => weeklyCountOrder a b = true)).Perm
        (weeklyStatusRows db officer s e ++ weeklyTotalRows db officer s e) ∧
      (∀ t ∈ weeklyTotalRows db officer s e, t.Particulars = "Total Client") ∧
      (∀ r ∈ weeklyStatusRows db officer s e,
        ∃ ci ∈ matchingClients db officer s e,
          ci.member_status = r.Particulars ∧ weekOfRecog ci = r.Week) ∧
      ((∃ t ∈ weeklyTotalRows db officer s e, t.Week = W) ↔
        ∃ r ∈ weeklyStatusRows db officer s e, r.Week = W) ∧
      ((weeklyTotalRows db officer s e).filter (fun t => decide (t.Week = W))).length ≤ 1 ∧
      (∀ t ∈ weeklyTotalRows db officer s e, t.Week = W →
        t.Count = (((weeklyStatusRows db officer s e).filter
          (fun r => decide (r.Week = W))).map (fun r => r.Count)).sum) ∧
      ((∀ ci ∈ matchingClients db officer s e, ci.member_status ≠ "Total Client") →
        ∀ r ∈ weeklyCustomerCountRows db officer s e,
          (r.Particulars = "Total Client" ↔ r ∈ weeklyTotalRows db officer s e)) := by
  refine ⟨GetWeeklyCustomerCount_of_valid h, List.perm_insertionSort _ _, ?_, ?_, ?_, ?_, ?_,
    ?_⟩
  · intro t ht
    rw [((mem_weeklyTotalRows _ _ _ _ t).mp ht).2]
  · intro r hr
    exact ((mem_weeklyStatusRows _ _ _ _ r).mp hr).1
  · constructor
    · rintro ⟨t, ht, rfl⟩
      obtain ⟨⟨ci, hci, hw⟩, _⟩ := (mem_weeklyTotalRows _ _ _ _ t).mp ht
      exact ⟨⟨ci.member_status, t.Week,
          (groupOf (fun x : CustomerInfo => (x.member_status, weekOfRecog x))
            (matchingClients db officer s e) (ci.member_status, t.Week)).length⟩,
        (mem_weeklyStatusRows _ _ _ _ _).mpr ⟨⟨ci, hci, rfl, hw⟩, rfl⟩, rfl⟩
    · rintro ⟨r, hr, rfl⟩
      obtain ⟨⟨ci, hci, _, hw⟩, _⟩ := (mem_weeklyStatusRows _ _ _ _ r).mp hr
      exact ⟨⟨"Total Client", r.Week,
          (groupOf weekOfRecog (matchingClients db officer s e) r.Week).length⟩,
        (mem_weeklyTotalRows _ _ _ _ _).mpr ⟨⟨ci, hci, hw⟩, rfl⟩, rfl⟩
  · apply length_filter_le_one_of_nodup_map (fun t : WeeklyCount => t.Week)
    rw [weeklyTotal_weeks]
    exact groupKeys_nodup _ _
  · intro t ht hW
    rw [weeklyStatus_sum, ← hW, ((mem_weeklyTotalRows _ _ _ _ t).mp ht).2]
  · intro hne r hr
    have hr2 : r ∈ weeklyStatusRows db officer s e ++ weeklyTotalRows db officer s e :=
      (List.perm_insertionSort _ _).mem_iff.mp hr
    constructor
    · intro hlabel
      rcases List.mem_append.mp hr2 with hs | ht
      · obtain ⟨⟨ci, hci, hst, _⟩, _⟩ := (mem_weeklyStatusRows _ _ _ _ r).mp hs
        exact absurd (hst.trans hlabel) (hne ci hci)
      · exact ht
    · intro ht
      rw [((mem_weeklyTotalRows _ _ _ _ r).mp ht).2]

/-- The sample store has clients in the weeks 1, 2 and 5 of March 2024. -/
theorem weekly_total_rows_witness :
    validRequest sampleDB sampleCtx "O1" ⟨2024, 1, 1⟩ ⟨2024, 12, 31⟩ ∧
      (GetWeeklyCustomerCount sampleDB sampleCtx).response
        = .json 200 [⟨"Active", "Week 1", 1⟩, ⟨"Active", "Week 2", 1⟩,
            ⟨"Inactive", "Week 5", 1⟩, ⟨"Total Client", "Week 1", 1⟩,
            ⟨"Total Client", "Week 2", 1⟩, ⟨"Total Client", "Week 5", 1⟩] ∧
      ((weeklyTotalRows sampleDB "O1" ⟨2024, 1, 1⟩ ⟨2024, 12, 31⟩).filter
        (fun t => decide (t.Week = "Week 2"))).length ≤ 1 :=
  ⟨sample_valid, by decide,
    (weekly_total_rows sampleDB sampleCtx "O1" ⟨2024, 1, 1⟩ ⟨2024, 12, 31⟩ sample_valid
      "Week 2").2.2.2.2.2.1⟩



theorem scanRows_eq_some {α β : Type} (scan : α → Option β) :
    ∀ (l : List α) (xs : List β), scanRows scan l = some xs →
      ∀ x ∈ xs, ∃ r ∈ l, scan r = some x
  | [], xs, h => by
    simp only [scanRows, Option.some.injEq] at h
    subst h
    simp
  | r :: rs, xs, h => by
    simp only [scanRows] at h
    cases hr : scan r with
    | none => simp [hr] at h
    | some y =>
      cases hrs : scanRows scan rs with
      | none => simp [hr, hrs] at h
      | some ys =>
        simp only [hr, hrs, Option.some.injEq] at h
        subst h
        intro x hx
        rcases List.mem_cons.mp hx with rfl | hx
        · exact ⟨r, List.mem_cons_self _ _, hr⟩
        · obtain ⟨r', hr', hs⟩ := scanRows_eq_some scan rs ys hrs x hx
          exact ⟨r', List.mem_cons_of_mem _ hr', hs⟩

theorem scanRows_isSome {α β : Type} (scan : α → Option β) :
    ∀ (l : List α), (∀ r ∈ l, (scan r).isSome) → ∃ xs, scanRows scan l = some xs
  | [], _ => ⟨[], rfl⟩
  | r :: rs, h => by
    obtain ⟨y, hy⟩ := Option.isSome_iff_exists.mp (h r (List.mem_cons_self _ _))
    obtain ⟨ys, hys⟩ := scanRows_isSome scan rs (fun x hx => h x (List.mem_cons_of_mem _ hx))
    exact ⟨y :: ys, by simp [scanRows, hy, hys]⟩

/-- A group with a non-null key has at least one row, and `COUNT(key)` counts all its rows. -/
theorem sqlCount_group_pos {α : Type} (key : α → Option String) (rows : List α) (k : String)
    (hk : some k ∈ groupKeys key rows) : 1 ≤ sqlCount key (groupOf key rows (some k)) := by
  obtain ⟨r, hr, hkey⟩ := (mem_groupKeys _ _ _).mp hk
  have hmem : r ∈ groupOf key rows (some k) := by
    simp [groupOf, hr, hkey]
  unfold sqlCount
  exact List.countP_pos_iff.mpr ⟨r, hmem, by simp [hkey]⟩

theorem sqlCount_null_group {α : Type} (key : α → Option String) (rows : List α) :
    sqlCount key (groupOf key rows none) = 0 := by
  unfold sqlCount groupOf
  rw [List.countP_eq_zero]
  intro r hr
  have := (List.mem_filter.mp hr).2
  simp only [decide_eq_true_eq] at this
  simp [this]

theorem GetProductCounts_of_valid {db : DB} {c : Ctx} {officer : String} {s e : Date}
    (h : validRequest db c officer s e) :
    GetProductCounts db c =
      match scanRows scanProductCount (productCountsRows db officer s e) with
      | none =>
        { response := .error 500 "Failed to parse product counts",
          issued := [⟨.productCounts, [officer, c.Query "start_date", c.Query "end_date"]⟩] }
      | some results =>
        { response := .json 200 results,
          issued := [⟨.productCounts, [officer, c.Query "start_date", c.Query "end_date"]⟩] } := by
  obtain ⟨ho, hrest⟩ := h
  subst ho
  have h : validRequest db c (c.Query "account_officer") s e := ⟨rfl, hrest⟩
  simp only [GetProductCounts, missingParameters_of_valid h, withDates_of_valid h]
  rfl

theorem productCount_row_pos (db : DB) (officer : String) (s e : Date) (r : ProductCountRow)
    (hr : r ∈ productCountsRows db officer s e) (x : ProductCount)
    (hx : scanProductCount r = some x) : 1 ≤ x.Count := by
  simp only [productCountsRows, List.mem_map] at hr
  obtain ⟨k, hk, rfl⟩ := hr
  cases k with
  | none => simp [scanProductCount] at hx
  | some t =>
    simp only [scanProductCount, Option.some.injEq] at hx
    subst hx
    exact sqlCount_group_pos _ _ t hk

/-! ## Counts of the grouped loan reports -/

/-- C8, amended: every row of a product counts report that the handler returns has Count at
least 1, and the handler returns a report when every matching loan account has an account
title; every row of the loan totals report whose bill type is not null has Count at least 1,
hence all rows do when every matching loan account has a bill type (the loan totals report
being the scan of the rows of the statement, returned when every amount is within the range
of float64). -/
theorem counts_positive_for_named_groups (db : DB) (c : Ctx) (officer : String) (s e : Date)
    (h : validRequest db c officer s e) :
    (∀ rows, (GetProductCounts db c).response = .json 200 rows → ∀ r ∈ rows, 1 ≤ r.Count) ∧
      ((∀ la ∈ matchingLoans db officer s e, la.account_title_1 ≠ none) →
        ∃ rows, (GetProductCounts db c).response = .json 200 rows) ∧
      (GetLoanAccountTotals db c).response
        = (if (loanAccountTotalsRows db officer s e).all (fun r => float64InRange r.Amount) then
            .json 200 ((loanAccountTotalsRows db officer s e).map scanLoanAccountResult)
          else .error 500 "Failed to get loan account totals") ∧
      (∀ r ∈ loanAccountTotalsRows db officer s e,
        r.Particulars ≠ none → 1 ≤ (scanLoanAccountResult r).Count) ∧
      ((∀ la ∈ matchingLoans db officer s e, la.bill_type ≠ none) →
        ∀ r ∈ (loanAccountTotalsRows db officer s e).map scanLoanAccountResult, 1 ≤ r.Count) := by
  have hloan : ∀ r ∈ loanAccountTotalsRows db officer s e,
      r.Particulars ≠ none → 1 ≤ (scanLoanAccountResult r).Count := by
    intro r hr hne
    simp only [loanAccountTotalsRows, List.mem_map] at hr
    obtain ⟨k, hk, rfl⟩ := hr
    cases k with
    | none => exact absurd rfl hne
    | some t => exact sqlCount_group_pos _ _ t hk
  refine ⟨?_, ?_, GetLoanAccountTotals_of_valid h, hloan, ?_⟩
  · intro rows hrows r hr
    rw [GetProductCounts_of_valid h] at hrows
    cases hs : scanRows scanProductCount (productCountsRows db officer s e) with
    | none => simp [hs] at hrows
    | some xs =>
      simp only [hs, Response.json.injEq, true_and] at hrows
      subst hrows
      obtain ⟨r0, hr0, hx⟩ := scanRows_eq_some _ _ _ hs r hr
      exact productCount_row_pos db officer s e r0 hr0 r hx
  · intro hall
    have hsome : ∀ r ∈ productCountsRows db officer s e, (scanProductCount r).isSome := by
      intro r hr
      simp only [productCountsRows, List.mem_map] at hr
      obtain ⟨k, hk, rfl⟩ := hr
      obtain ⟨la, hla, hkey⟩ := (mem_groupKeys _ _ _).mp hk
      cases k with
      | none => exact absurd hkey (hall la hla)
      | some t => simp [scanProductCount]
    obtain ⟨xs, hxs⟩ := scanRows_isSome _ _ hsome
    exact ⟨xs, by rw [GetProductCounts_of_valid h, hxs]⟩
  · intro hall r hr
    obtain ⟨r0, hr0, rfl⟩ := List.mem_map.mp hr
    apply hloan r0 hr0
    simp only [loanAccountTotalsRows, List.mem_map] at hr0
    obtain ⟨k, hk, rfl⟩ := hr0
    obtain ⟨la, hla, hkey⟩ := (mem_groupKeys _ _ _).mp hk
    intro hnone
    exact hall la hla (hkey.trans hnone)

/-- C8 fails as stated: with a matching loan account of null bill type the loan totals report
has a row with Count 0 (and the product counts handler, the account title being null too,
answers 500 instead of a report). -/
theorem loanTotals_null_group_count_zero :
    (matchingLoans sampleDB "O1" ⟨2024, 1, 1⟩ ⟨2024, 12, 31⟩).map (fun la => la.bill_type)
        = [some "W", none, some "W"] ∧
      (GetLoanAccountTotals sampleDB sampleCtx).response
        = .json 200 [⟨"", 0, ⟨7, 1⟩⟩, ⟨"W", 2, ⟨-3, 1⟩⟩] ∧
      ¬ (∀ r ∈ ([⟨"", 0, ⟨7, 1⟩⟩, ⟨"W", 2, ⟨-3, 1⟩⟩] : List LoanAccountResult), 1 ≤ r.Count) ∧
      (GetProductCounts sampleDB sampleCtx).response
        = .error 500 "Failed to parse product counts" := by
  refine ⟨by decide, by with_unfolding_all decide, by simp, by decide⟩

/-- With bill type and account title on every loan account both reports have one row of
Count 2. -/
theorem counts_positive_for_named_groups_witness :
    validRequest assignedDB sampleCtx "O1" ⟨2024, 1, 1⟩ ⟨2024, 12, 31⟩ ∧
      (GetProductCounts assignedDB sampleCtx).response = .json 200 [⟨"P", 2⟩] ∧
      (GetLoanAccountTotals assignedDB sampleCtx).response = .json 200 [⟨"W", 2, ⟨-3, 1⟩⟩] ∧
      (∀ r ∈ ([⟨"P", 2⟩] : List ProductCount), 1 ≤ r.Count) :=
  ⟨sample_valid, by decide, by with_unfolding_all decide,
    (counts_positive_for_named_groups assignedDB sampleCtx "O1" ⟨2024, 1, 1⟩ ⟨2024, 12, 31⟩
      sample_valid).1 _ (by decide)⟩



theorem matchingClients_eq_nil_of_range (db : DB) (officer : String) (s e : Date)
    (hlt : e.toDays < s.toDays) : matchingClients db officer s e = [] := by
  apply List.eq_nil_iff_forall_not_mem.mpr
  intro ci hci
  have h := (List.mem_filter.mp hci).2
  simp only [clientWhere, between, Bool.and_eq_true, decide_eq_true_eq] at h
  omega

theorem matchingJoined_eq_nil (db : DB) (officer : String) (s e : Date)
    (h : matchingClients db officer s e = []) : matchingJoined db officer s e = [] := by
  apply List.eq_nil_iff_forall_not_mem.mpr
  intro r hr
  have := ((mem_matchingJoined db officer s e r).mp hr).1
  rw [h] at this
  exact absurd this (List.not_mem_nil _)

/-! ## Reports over an empty selection -/

/-- C9, amended: when no client record matches a well-formed request, in particular when
the start date lies after the end date, the status counts report and the center summary
report have no per-status and no per-center row and consist of exactly the synthetic total
row, with all counts zero. -/
theorem empty_selection_total_row_only (db : DB) (c : Ctx) (officer : String) (s e : Date)
    (h : validRequest db c officer s e)
    (hempty : matchingClients db officer s e = [] ∨ e.toDays < s.toDays) :
    (GetTotalCountsClient db c).response = .json 200 [⟨"Total Client", 0⟩] ∧
      (GetCenterSummary db c).response = .json 200 [⟨"Total Centers", 0, 0, 0, 0⟩] := by
  have hnil : matchingClients db officer s e = [] := by
    rcases hempty with h1 | h2
    · exact h1
    · exact matchingClients_eq_nil_of_range db officer s e h2
  have hj := matchingJoined_eq_nil db officer s e hnil
  constructor
  · rw [GetTotalCountsClient_of_valid h]
    simp [totalCountsClientRows, statusCountRows, totalClientRow, hnil, groupKeys, sqlCountStar]
  · rw [GetCenterSummary_of_valid h]
    simp [centerSummaryRows, centerRows, totalCentersRow, hj, groupKeys, centerAggregates,
      sqlCountDistinct, distinctValues]

/-- C9 fails as stated: for a range whose start lies after its end no client matches, and
both reports still hold their total row, so neither is empty. -/
theorem empty_range_reports_not_empty :
    matchingClients sampleDB "O1" ⟨2024, 12, 31⟩ ⟨2024, 1, 1⟩ = [] ∧
      (GetTotalCountsClient sampleDB emptyRangeCtx).response = .json 200 [⟨"Total Client", 0⟩] ∧
      (GetTotalCountsClient sampleDB emptyRangeCtx).response ≠ .json 200 [] ∧
      (GetCenterSummary sampleDB emptyRangeCtx).response
        = .json 200 [⟨"Total Centers", 0, 0, 0, 0⟩] ∧
      (GetCenterSummary sampleDB emptyRangeCtx).response ≠ .json 200 [] := by
  refine ⟨by decide, by decide, by decide, by decide, by decide⟩

/-- The amended C9 at the sample store with the range from 2024-12-31 to 2024-01-01. -/
theorem empty_selection_total_row_only_witness :
    validRequest sampleDB emptyRangeCtx "O1" ⟨2024, 12, 31⟩ ⟨2024, 1, 1⟩ ∧
      (GetTotalCountsClient sampleDB emptyRangeCtx).response = .json 200 [⟨"Total Client", 0⟩] ∧
      (GetCenterSummary sampleDB emptyRangeCtx).response
        = .json 200 [⟨"Total Centers", 0, 0, 0, 0⟩] :=
  ⟨emptyRange_valid,
    empty_selection_total_row_only sampleDB emptyRangeCtx "O1" ⟨2024, 12, 31⟩ ⟨2024, 1, 1⟩
      emptyRange_valid (Or.inr (by decide))⟩

theorem sum_mul_neg_one {α : Type} (f : α → ℚ) (l : List α) :
    sqlSum f l * -1 = (l.map (fun x => - f x)).sum := by
  unfold sqlSum
  induction l with
  | nil => simp
  | cons x xs ih =>
    simp only [List.map_cons, List.sum_cons]
    rw [← ih]
    ring

theorem sqlSum_nonpos {α : Type} (f : α → ℚ) (l : List α) (h : ∀ x ∈ l, f x ≤ 0) :
    sqlSum f l ≤ 0 := by
  unfold sqlSum
  induction l with
  | nil => simp
  | cons x xs ih =>
    simp only [List.map_cons, List.sum_cons]
    have h1 := h x (List.mem_cons_self _ _)
    have h2 := ih (fun y hy => h y (List.mem_cons_of_mem _ hy))
    linarith

theorem mem_weeklyCapitalBuildUpRows (db : DB) (officer : String) (s e : Date)
    (r : WeeklyCapitalRow) (hr : r ∈ weeklyCapitalBuildUpRows db officer s e) :
    r = weeklyCapitalRowOf (capitalLoans db officer s e) r.Week := by
  simp only [weeklyCapitalBuildUpRows, List.mem_map] at hr
  obtain ⟨w, _, rfl⟩ := hr
  rfl

theorem mem_loanAccountTotalsRows (db : DB) (officer : String) (s e : Date)
    (r : LoanTotalsRow) (hr : r ∈ loanAccountTotalsRows db officer s e) :
    r = loanTotalsRowOf (matchingLoans db officer s e) r.Particulars := by
  simp only [loanAccountTotalsRows, List.mem_map] at hr
  obtain ⟨k, _, rfl⟩ := hr
  rfl

theorem withoutLoanId_eq_some (r : Joined) (v : String) :
    withoutLoanId r = some v ↔
      r.1.t_id = v ∧ (r.2 = none ∨ ∃ la, r.2 = some la ∧ la.customer = none) := by
  obtain ⟨ci, x⟩ := r
  cases x with
  | none => simp [withoutLoanId, caseWhen, Joined.la_customer]
  | some la =>
    cases hc : la.customer <;> simp [withoutLoanId, caseWhen, Joined.la_customer, hc]

theorem pastDueId_eq_some (r : Joined) (v : String) :
    pastDueId r = some v ↔ r.1.t_id = v ∧ ∃ la, r.2 = some la ∧ la.bill_status = "DUE" := by
  obtain ⟨ci, x⟩ := r
  cases x with
  | none => simp [pastDueId, caseWhen, Joined.la_bill_status]
  | some la => simp [pastDueId, caseWhen, Joined.la_bill_status, and_comm]

/-- The loan side of a joined row is a loan account of the client of the row. -/
theorem joined_loan_customer {db : DB} {officer : String} {s e : Date} {r : Joined}
    (hr : r ∈ matchingJoined db officer s e) {la : LoanAcct} (hla : r.2 = some la) :
    la ∈ db.loan_acct ∧ la.customer = some r.1.t_id := by
  obtain ⟨_, hj⟩ := (mem_matchingJoined db officer s e r).mp hr
  rcases hj with ⟨hnone, _⟩ | ⟨la', hla', hsome⟩
  · rw [hla] at hnone
    exact absurd hnone (by simp)
  · rw [hla] at hsome
    cases hsome
    exact (mem_loansOf _ _ _).mp hla'

/-- A joined row is on exactly one side: its loan columns are `NULL` or they are not. -/
theorem withLoan_or_withoutLoan {db : DB} {officer : String} {s e : Date} {r : Joined}
    (hr : r ∈ matchingJoined db officer s e) :
    (withLoanId r = some r.1.t_id ∧ withoutLoanId r = none) ∨
      (withLoanId r = none ∧ withoutLoanId r = some r.1.t_id) := by
  obtain ⟨ci, x⟩ := r
  cases x with
  | none => right; simp [withLoanId, withoutLoanId, caseWhen, Joined.la_customer]
  | some la =>
    left
    have hc := (joined_loan_customer hr rfl).2
    simp only at hc
    simp [withLoanId, withoutLoanId, caseWhen, Joined.la_customer, hc]

/-- No identifier is counted both with and without loans. -/
theorem withLoan_withoutLoan_disjoint {db : DB} {officer : String} {s e : Date}
    {r1 r2 : Joined} (h1 : r1 ∈ matchingJoined db officer s e)
    (h2 : r2 ∈ matchingJoined db officer s e) (v : String)
    (hw : withLoanId r1 = some v) (hwo : withoutLoanId r2 = some v) : False := by
  obtain ⟨hid1, la, hla, _⟩ := (withLoanId_eq_some r1 v).mp hw
  obtain ⟨hmem, hcust⟩ := joined_loan_customer h1 hla
  obtain ⟨hid2, hside⟩ := (withoutLoanId_eq_some r2 v).mp hwo
  rcases hside with hnone | ⟨la2, hla2, hnull⟩
  · obtain ⟨_, hj⟩ := (mem_matchingJoined db officer s e r2).mp h2
    rcases hj with ⟨_, hempty⟩ | ⟨la', _, hsome⟩
    · have : la ∈ loansOf db.loan_acct r2.1 :=
        (mem_loansOf _ _ _).mpr ⟨hmem, by rw [hcust, hid1, hid2]⟩
      rw [hempty] at this
      exact absurd this (List.not_mem_nil _)
    · rw [hnone] at hsome
      exact absurd hsome (by simp)
  · have := (joined_loan_customer h2 hla2).2
    rw [hnull] at this
    exact absurd this (by simp)

/-- The identifiers counted with loans followed by those counted without are, up to order,
the identifiers of all clients of the rows. -/
theorem withLoans_append_withoutLoans_perm (db : DB) (officer : String) (s e : Date)
    (g : List Joined) (hg : ∀ r ∈ g, r ∈ matchingJoined db officer s e) :
    (distinctValues withLoanId g ++ distinctValues withoutLoanId g).Perm
      (distinctValues (fun r : Joined => some r.1.t_id) g) := by
  have hnd : (distinctValues withLoanId g ++ distinctValues withoutLoanId g).Nodup := by
    refine List.Nodup.append (List.nodup_dedup _) (List.nodup_dedup _) ?_
    intro v hv1 hv2
    obtain ⟨r1, hr1, hw⟩ := (mem_distinctValues _ _ _).mp hv1
    obtain ⟨r2, hr2, hwo⟩ := (mem_distinctValues _ _ _).mp hv2
    exact withLoan_withoutLoan_disjoint (hg r1 hr1) (hg r2 hr2) v hw hwo
  refine (List.perm_ext_iff_of_nodup hnd (List.nodup_dedup _)).mpr ?_
  intro v
  rw [List.mem_append]
  constructor
  · rintro (hv | hv)
    · obtain ⟨r, hr, hw⟩ := (mem_distinctValues _ _ _).mp hv
      exact (mem_distinctValues _ _ _).mpr ⟨r, hr, by rw [((withLoanId_eq_some r v).mp hw).1]⟩
    · obtain ⟨r, hr, hwo⟩ := (mem_distinctValues _ _ _).mp hv
      exact (mem_distinctValues _ _ _).mpr
        ⟨r, hr, by rw [((withoutLoanId_eq_some r v).mp hwo).1]⟩
  · intro hv
    obtain ⟨r, hr, hid⟩ := (mem_distinctValues _ _ _).mp hv
    simp only [Option.some.injEq] at hid
    rcases withLoan_or_withoutLoan (hg r hr) with ⟨hw, _⟩ | ⟨_, hwo⟩
    · exact Or.inl ((mem_distinctValues _ _ _).mpr ⟨r, hr, by rw [hw, hid]⟩)
    · exact Or.inr ((mem_distinctValues _ _ _).mpr ⟨r, hr, by rw [hwo, hid]⟩)

/-- The two loan metrics split the clients of any set of joined rows of the statement. -/
theorem withLoans_add_withoutLoans (db : DB) (officer : String) (s e : Date) (g : List Joined)
    (hg : ∀ r ∈ g, r ∈ matchingJoined db officer s e) :
    sqlCountDistinct withLoanId g + sqlCountDistinct withoutLoanId g
      = sqlCountDistinct (fun r : Joined => some r.1.t_id) g := by
  unfold sqlCountDistinct
  rw [← List.length_append]
  exact (withLoans_append_withoutLoans_perm db officer s e g hg).length_eq

/-- Every matching client has a joined row. -/
theorem exists_joined_row {db : DB} {officer : String} {s e : Date} {ci : CustomerInfo}
    (hci : ci ∈ matchingClients db officer s e) :
    ∃ r ∈ matchingJoined db officer s e, r.1 = ci := by
  cases hl : loansOf db.loan_acct ci with
  | nil =>
    exact ⟨(ci, none), (mem_matchingJoined db officer s e _).mpr ⟨hci, Or.inl ⟨rfl, hl⟩⟩, rfl⟩
  | cons la rest =>
    refine ⟨(ci, some la), (mem_matchingJoined db officer s e _).mpr
      ⟨hci, Or.inr ⟨la, ?_, rfl⟩⟩, rfl⟩
    show la ∈ loansOf db.loan_acct ci
    rw [hl]
    exact List.mem_cons_self _ _

/-- A client counted as past due is counted with loans. -/
theorem pastDue_le_withLoans (db : DB) (officer : String) (s e : Date) (g : List Joined)
    (hg : ∀ r ∈ g, r ∈ matchingJoined db officer s e) :
    sqlCountDistinct pastDueId g ≤ sqlCountDistinct withLoanId g := by
  unfold sqlCountDistinct
  apply List.Subperm.length_le
  apply List.subperm_of_subset (List.nodup_dedup _)
  intro v hv
  obtain ⟨r, hr, hp⟩ := (mem_distinctValues _ _ _).mp hv
  obtain ⟨hid, la, hla, _⟩ := (pastDueId_eq_some r v).mp hp
  have hc := (joined_loan_customer (hg r hr) hla).2
  exact (mem_distinctValues _ _ _).mpr
    ⟨r, hr, (withLoanId_eq_some r v).mpr ⟨hid, la, hla, by simp [hc]⟩⟩

/-! ## Center summary: the metrics of a row -/

/-- C11: in every row of the center summary report, the per-center rows and the Total
Centers row alike, WithLoans + WithoutLoans = NoOfClients and PastDue is at most WithLoans:
every joined row yields the client identifier on exactly one of the two sides with loan and
without loan, a row of bill status DUE is on the side with loan, and the identifier of a
matching client is counted on exactly one side over the whole selection. -/
theorem center_row_invariants (db : DB) (c : Ctx) (officer : String) (s e : Date)
    (h : validRequest db c officer s e) :
    (GetCenterSummary db c).response
        = .json 200 (centerRows db officer s e ++ [totalCentersRow db officer s e]) ∧
      (∀ r ∈ centerRows db officer s e ++ [totalCentersRow db officer s e],
        r.WithLoans + r.WithoutLoans = r.NoOfClients ∧ r.PastDue ≤ r.WithLoans) ∧
      (∀ r ∈ matchingJoined db officer s e,
        ((withLoanId r = some r.1.t_id ∧ withoutLoanId r = none) ∨
          (withLoanId r = none ∧ withoutLoanId r = some r.1.t_id)) ∧
        (pastDueId r = some r.1.t_id → withLoanId r = some r.1.t_id)) ∧
      ∀ ci ∈ matchingClients db officer s e,
        (distinctValues withLoanId (matchingJoined db officer s e)).count ci.t_id
          + (distinctValues withoutLoanId (matchingJoined db officer s e)).count ci.t_id = 1 := by
  refine ⟨GetCenterSummary_of_valid h, ?_, ?_, ?_⟩
  · intro r hr
    rcases List.mem_append.mp hr with hc | ht
    · simp only [centerRows, List.mem_map] at hc
      obtain ⟨k, _, rfl⟩ := hc
      have hg : ∀ x ∈ centerGroup db officer s e k, x ∈ matchingJoined db officer s e :=
        fun x hx => ((mem_centerGroup _ _ _ _ _ _).mp hx).1
      exact ⟨withLoans_add_withoutLoans db officer s e _ hg,
        pastDue_le_withLoans db officer s e _ hg⟩
    · rw [List.mem_singleton.mp ht]
      exact ⟨withLoans_add_withoutLoans db officer s e _ (fun x hx => hx),
        pastDue_le_withLoans db officer s e _ (fun x hx => hx)⟩
  · intro r hr
    refine ⟨withLoan_or_withoutLoan hr, ?_⟩
    intro hp
    obtain ⟨_, la, hla, _⟩ := (pastDueId_eq_some r _).mp hp
    have hc := (joined_loan_customer hr hla).2
    exact (withLoanId_eq_some r _).mpr ⟨rfl, la, hla, by simp [hc]⟩
  · intro ci hci
    obtain ⟨r, hr, hrc⟩ := exists_joined_row hci
    rw [← List.count_append,
      (withLoans_append_withoutLoans_perm db officer s e _ (fun x hx => hx)).count_eq]
    exact count_distinctValues_eq_one _ _ _ r hr (by rw [hrc])

/-- The rows of the sample store: 1 + 1 = 2, 0 + 1 = 1 and 1 + 2 = 3 clients, past due at
most with loans. -/
theorem center_row_invariants_witness :
    validRequest sampleDB sampleCtx "O1" ⟨2024, 1, 1⟩ ⟨2024, 12, 31⟩ ∧
      (GetCenterSummary sampleDB sampleCtx).response
        = .json 200 [⟨"C1", 2, 1, 1, 1⟩, ⟨"C2", 1, 0, 1, 0⟩, ⟨"Total Centers", 3, 1, 2, 1⟩] ∧
      (totalCentersRow sampleDB "O1" ⟨2024, 1, 1⟩ ⟨2024, 12, 31⟩).WithLoans
          + (totalCentersRow sampleDB "O1" ⟨2024, 1, 1⟩ ⟨2024, 12, 31⟩).WithoutLoans
        = (totalCentersRow sampleDB "O1" ⟨2024, 1, 1⟩ ⟨2024, 12, 31⟩).NoOfClients ∧
      (totalCentersRow sampleDB "O1" ⟨2024, 1, 1⟩ ⟨2024, 12, 31⟩).PastDue
        ≤ (totalCentersRow sampleDB "O1" ⟨2024, 1, 1⟩ ⟨2024, 12, 31⟩).WithLoans :=
  ⟨sample_valid, by decide,
    (center_row_invariants sampleDB sampleCtx "O1" ⟨2024, 1, 1⟩ ⟨2024, 12, 31⟩
      sample_valid).2.1 _ (List.mem_append_right _ (List.mem_singleton_self _))⟩



/-! ## Reading a numeric into a float64 -/

theorem toRat_float64OfNumeric (q : ℚ) : (float64OfNumeric q).toRat = roundFloat64 q := by
  simp only [Float64.toRat, float64OfNumeric]
  exact Rat.num_div_den _

theorem float64Magnitude_nonneg (n d : Nat) : 0 ≤ float64Magnitude n d := by
  unfold float64Magnitude
  exact div_nonneg (Nat.cast_nonneg _) (Nat.cast_nonneg _)

theorem float64Magnitude_zero : float64Magnitude 0 1 = 0 := by
  have h : float64Mantissa 0 1 = 0 := by decide
  simp [float64Magnitude, h]

theorem roundFloat64_nonneg {q : ℚ} (h : 0 ≤ q) : 0 ≤ roundFloat64 q := by
  unfold roundFloat64
  have : ¬ q.num < 0 := not_lt.mpr (Rat.num_nonneg.mpr h)
  rw [if_neg this]
  exact float64Magnitude_nonneg _ _

theorem roundFloat64_nonpos {q : ℚ} (h : q ≤ 0) : roundFloat64 q ≤ 0 := by
  unfold roundFloat64
  split_ifs with hn
  · exact neg_nonpos.mpr (float64Magnitude_nonneg _ _)
  · have h0 : 0 ≤ q := Rat.num_nonneg.mp (not_lt.mp hn)
    have hq : q = 0 := le_antisymm h h0
    subst hq
    simp [float64Magnitude_zero]

/-- Rounding a quotient to the nearest integer, a tie to the even one, moves it by at most a
half. -/
theorem nearest_integer_error (num den : Nat) (hden : 0 < den) :
    |(((if den < 2 * (num % den) ∨ (2 * (num % den) = den ∧ num / den % 2 = 1)
        then num / den + 1 else num / den : Nat) : ℚ)) - (num : ℚ) / (den : ℚ)| ≤ 1 / 2 := by
  have hd : (0 : ℚ) < (den : ℚ) := by exact_mod_cast hden
  have hsplit : (num : ℚ) = (den : ℚ) * ((num / den : Nat) : ℚ) + ((num % den : Nat) : ℚ) := by
    exact_mod_cast (Nat.div_add_mod num den).symm
  have hr : ((num % den : Nat) : ℚ) < (den : ℚ) := by exact_mod_cast Nat.mod_lt num hden
  have hr0 : (0 : ℚ) ≤ ((num % den : Nat) : ℚ) := Nat.cast_nonneg _
  have hq : (num : ℚ) / (den : ℚ)
      = ((num / den : Nat) : ℚ) + ((num % den : Nat) : ℚ) / (den : ℚ) := by
    rw [hsplit]
    field_simp
    ring
  split_ifs with hc
  · have h2 : (den : ℚ) ≤ 2 * ((num % den : Nat) : ℚ) := by
      rcases hc with h1 | ⟨h1, _⟩
      · exact_mod_cast h1.le
      · exact_mod_cast h1.ge
    rw [hq, abs_le]
    push_cast
    have hfrac : (1 : ℚ) / 2 ≤ ((num % den : Nat) : ℚ) / (den : ℚ) := by
      rw [div_le_div_iff₀ (by norm_num) hd]
      linarith
    have hfrac1 : ((num % den : Nat) : ℚ) / (den : ℚ) < 1 := by
      rw [div_lt_one hd]
      exact hr
    constructor <;> linarith
  · have h2 : 2 * ((num % den : Nat) : ℚ) ≤ (den : ℚ) := by
      have : ¬ den < 2 * (num % den) := fun h => hc (Or.inl h)
      exact_mod_cast not_lt.mp this
    rw [hq, abs_le]
    have hfrac : ((num % den : Nat) : ℚ) / (den : ℚ) ≤ 1 / 2 := by
      rw [div_le_div_iff₀ hd (by norm_num)]
      linarith
    have hfrac0 : 0 ≤ ((num % den : Nat) : ℚ) / (den : ℚ) := div_nonneg hr0 hd.le
    constructor <;> linarith

/-- The float64 nearest to `n / d` differs from it by at most half a unit of its last place,
the unit being `2 ^ float64Exponent n d`. -/
theorem float64Magnitude_error (n d : Nat) (hd : 0 < d) :
    |float64Magnitude n d - (n : ℚ) / (d : ℚ)|
      ≤ (2 : ℚ) ^ (float64Exponent n d) / 2 := by
  have hdq : (0 : ℚ) < (d : ℚ) := by exact_mod_cast hd
  have hp : ∀ k : Nat, (0 : ℚ) < (2 : ℚ) ^ k := fun k => by positivity
  have hround := nearest_integer_error (n * 2 ^ (-(float64Exponent n d)).toNat)
    (d * 2 ^ (float64Exponent n d).toNat) (Nat.mul_pos hd (pow_pos (by norm_num) _))
  have hzpow : (2 : ℚ) ^ (float64Exponent n d)
      = (2 : ℚ) ^ (float64Exponent n d).toNat / (2 : ℚ) ^ (-(float64Exponent n d)).toNat := by
    rcases le_total 0 (float64Exponent n d) with he | he
    · have h1 : (-(float64Exponent n d)).toNat = 0 := by omega
      rw [h1, pow_zero, div_one, ← zpow_natCast, Int.toNat_of_nonneg he]
    · have h1 : (float64Exponent n d).toNat = 0 := by omega
      have h2 : float64Exponent n d = - (((-(float64Exponent n d)).toNat : Nat) : Int) := by
        omega
      rw [h1, pow_zero, one_div, ← zpow_natCast, ← zpow_neg, ← h2]
  have hm : float64Magnitude n d - (n : ℚ) / (d : ℚ)
      = (((float64Mantissa n d : Nat) : ℚ)
          - ((n * 2 ^ (-(float64Exponent n d)).toNat : Nat) : ℚ)
            / ((d * 2 ^ (float64Exponent n d).toNat : Nat) : ℚ))
        * ((2 : ℚ) ^ (float64Exponent n d).toNat
          / (2 : ℚ) ^ (-(float64Exponent n d)).toNat) := by
    unfold float64Magnitude
    push_cast
    have ha := (hp (-(float64Exponent n d)).toNat).ne'
    have hb := (hp (float64Exponent n d).toNat).ne'
    field_simp
    ring
  rw [hm, abs_mul, hzpow,
    abs_of_pos (div_pos (hp (float64Exponent n d).toNat) (hp (-(float64Exponent n d)).toNat))]
  have hpos : (0 : ℚ) ≤ (2 : ℚ) ^ (float64Exponent n d).toNat
      / (2 : ℚ) ^ (-(float64Exponent n d)).toNat :=
    (div_pos (hp _) (hp _)).le
  have hmant : |((float64Mantissa n d : Nat) : ℚ)
      - ((n * 2 ^ (-(float64Exponent n d)).toNat : Nat) : ℚ)
        / ((d * 2 ^ (float64Exponent n d).toNat : Nat) : ℚ)| ≤ 1 / 2 := hround
  calc _ ≤ 1 / 2 * ((2 : ℚ) ^ (float64Exponent n d).toNat
            / (2 : ℚ) ^ (-(float64Exponent n d)).toNat) :=
        mul_le_mul_of_nonneg_right hmant hpos
    _ = _ := by ring

/-- The value read into a float64 field is within half a unit in the last place of the exact
decimal. -/
theorem roundFloat64_error (q : ℚ) :
    |roundFloat64 q - q| ≤ (2 : ℚ) ^ (float64Exponent q.num.natAbs q.den) / 2 := by
  have h := float64Magnitude_error q.num.natAbs q.den q.den_pos
  have hqd : (q.num : ℚ) / (q.den : ℚ) = q := Rat.num_div_den q
  unfold roundFloat64
  split_ifs with hn
  · have hint : ((q.num.natAbs : Nat) : Int) = - q.num := by omega
    have habs : ((q.num.natAbs : Nat) : ℚ) = - (q.num : ℚ) := by
      rw [← Int.cast_natCast, hint, Int.cast_neg]
    rw [habs, neg_div, hqd] at h
    have hneg : -float64Magnitude q.num.natAbs q.den - q
        = - (float64Magnitude q.num.natAbs q.den - -q) := by ring
    rw [hneg, abs_neg]
    exact h
  · have hint : ((q.num.natAbs : Nat) : Int) = q.num := by omega
    have habs : ((q.num.natAbs : Nat) : ℚ) = (q.num : ℚ) := by
      rw [← Int.cast_natCast, hint]
    rw [habs, hqd] at h
    exact h

theorem scanWeeklyCapitalBuildUp_eq_some (r : WeeklyCapitalRow) (x : WeeklyCapitalBuildUp)
    (h : scanWeeklyCapitalBuildUp r = some x) :
    float64InRange r.TotalCapital = true ∧ x.Title = r.Title ∧ x.Week = r.Week ∧
      x.TotalCapital = float64OfNumeric r.TotalCapital := by
  unfold scanWeeklyCapitalBuildUp at h
  split_ifs at h with hr
  simp only [Option.some.injEq] at h
  subst h
  exact ⟨hr, rfl, rfl, rfl⟩

theorem scanRows_length {α β : Type} (scan : α → Option β) :
    ∀ (l : List α) (xs : List β), scanRows scan l = some xs → xs.length = l.length
  | [], xs, h => by
    simp only [scanRows, Option.some.injEq] at h
    subst h
    rfl
  | r :: rs, xs, h => by
    simp only [scanRows] at h
    cases hr : scan r with
    | none => simp [hr] at h
    | some y =>
      cases hrs : scanRows scan rs with
      | none => simp [hr, hrs] at h
      | some ys =>
        simp only [hr, hrs, Option.some.injEq] at h
        subst h
        simp [scanRows_length scan rs ys hrs]

/-- The weekly capital report, when one is returned, is the scan of the rows of the
statement. -/
theorem weeklyCapital_report {db : DB} {c : Ctx} {officer : String} {s e : Date}
    (h : validRequest db c officer s e) (rs : List WeeklyCapitalBuildUp)
    (hrs : (GetWeeklyCapitalBuildUp db c).response = .json 200 rs) :
    scanRows scanWeeklyCapitalBuildUp (weeklyCapitalBuildUpRows db officer s e) = some rs := by
  rw [GetWeeklyCapitalBuildUp_of_valid h] at hrs
  cases hs : scanRows scanWeeklyCapitalBuildUp (weeklyCapitalBuildUpRows db officer s e) with
  | none => simp [hs] at hrs
  | some xs =>
    simp only [hs, Response.json.injEq, true_and] at hrs
    rw [hrs]

theorem weeklyCapital_returned {db : DB} {c : Ctx} {officer : String} {s e : Date}
    (h : validRequest db c officer s e)
    (hr : ∀ r ∈ weeklyCapitalBuildUpRows db officer s e, float64InRange r.TotalCapital = true) :
    ∃ rs, (GetWeeklyCapitalBuildUp db c).response = .json 200 rs := by
  have hsome : ∀ r ∈ weeklyCapitalBuildUpRows db officer s e,
      (scanWeeklyCapitalBuildUp r).isSome := by
    intro r hmem
    simp [scanWeeklyCapitalBuildUp, hr r hmem]
  obtain ⟨xs, hxs⟩ := scanRows_isSome _ _ hsome
  exact ⟨xs, by rw [GetWeeklyCapitalBuildUp_of_valid h, hxs]⟩

theorem loanTotals_amount_eq (db : DB) (officer : String) (s e : Date) (r : LoanTotalsRow)
    (hr : r ∈ loanAccountTotalsRows db officer s e) :
    r.Amount = sqlSum (fun x : LoanAcct => x.online_actual_bal)
      (groupOf (fun x : LoanAcct => x.bill_type) (matchingLoans db officer s e)
        r.Particulars) * -1 := by
  rw [mem_loanAccountTotalsRows db officer s e r hr]
  rfl

theorem weeklyCapital_total_eq (db : DB) (officer : String) (s e : Date) (r : WeeklyCapitalRow)
    (hr : r ∈ weeklyCapitalBuildUpRows db officer s e) :
    r.TotalCapital = sqlSum (fun x : LoanAcct => x.online_actual_bal)
      (groupOf weekOfOpening (capitalLoans db officer s e) r.Week) * -1 := by
  rw [mem_weeklyCapitalBuildUpRows db officer s e r hr]
  rfl

/-- Reading an exact amount `total * -1` into a float64 keeps the side of zero it is on. -/
theorem float64_sign (total : ℚ) :
    (total ≤ 0 → 0 ≤ (float64OfNumeric (total * -1)).toRat) ∧
      (0 ≤ total → (float64OfNumeric (total * -1)).toRat ≤ 0) := by
  rw [toRat_float64OfNumeric]
  constructor
  · intro ht
    exact roundFloat64_nonneg (by linarith)
  · intro ht
    exact roundFloat64_nonpos (by linarith)

/-- Scanning rows that all scan gives the scanned rows in order. -/
theorem scanRows_eq_map {α β : Type} (scan : α → Option β) (f : α → β) :
    ∀ (l : List α), (∀ r ∈ l, scan r = some (f r)) → scanRows scan l = some (l.map f)
  | [], _ => rfl
  | r :: rs, h => by
    have h1 := h r (List.mem_cons_self _ _)
    have h2 := scanRows_eq_map scan f rs (fun x hx => h x (List.mem_cons_of_mem _ hx))
    simp [scanRows, h1, h2]

/-- The weekly capital row read into the output struct. -/
theorem scanRows_weekly_of_inRange (rows : List WeeklyCapitalRow)
    (hr : ∀ r ∈ rows, float64InRange r.TotalCapital = true) :
    scanRows scanWeeklyCapitalBuildUp rows
      = some (rows.map (fun r =>
          ({ Title := r.Title, Week := r.Week,
             TotalCapital := float64OfNumeric r.TotalCapital } : WeeklyCapitalBuildUp))) := by
  apply scanRows_eq_map
  intro r hmem
  simp [scanWeeklyCapitalBuildUp, hr r hmem]

/-! ## Loan totals against the weekly capital build-up -/

/-- C6, amended: for a well-formed request the exact numeric amounts that the loan totals
statement computes for the groups with a bill type add up to the sum of the exact numeric
totals of the rows of the weekly capital build-up statement, both being the negated sum of
the stored balances of the officer's loan accounts in the range that have a bill type; the
Amount and TotalCapital of the reports are these values read into float64, so the sums of
the reported values agree when every exact value is a float64 in range. -/
theorem exact_loanTotals_eq_weeklyCapital (db : DB) (c : Ctx) (officer : String) (s e : Date)
    (h : validRequest db c officer s e) :
    (((loanAccountTotalsRows db officer s e).filter (fun r => r.Particulars.isSome)).map
          (fun r => r.Amount)).sum
        = ((weeklyCapitalBuildUpRows db officer s e).map (fun r => r.TotalCapital)).sum ∧
      ((weeklyCapitalBuildUpRows db officer s e).map (fun r => r.TotalCapital)).sum
        = ((capitalLoans db officer s e).map (fun r => r.online_actual_bal)).sum * -1 ∧
      (GetLoanAccountTotals db c).response
        = (if (loanAccountTotalsRows db officer s e).all (fun r => float64InRange r.Amount) then
            .json 200 ((loanAccountTotalsRows db officer s e).map scanLoanAccountResult)
          else .error 500 "Failed to get loan account totals") ∧
      (∀ r : LoanTotalsRow, (scanLoanAccountResult r).Amount = float64OfNumeric r.Amount) ∧
      (GetWeeklyCapitalBuildUp db c).response
        = (match scanRows scanWeeklyCapitalBuildUp (weeklyCapitalBuildUpRows db officer s e) with
          | none => .error 500 "Failed to parse weekly capital build-up total"
          | some results => .json 200 results) ∧
      (∀ (r : WeeklyCapitalRow) (x : WeeklyCapitalBuildUp), scanWeeklyCapitalBuildUp r = some x →
        x.Week = r.Week ∧ x.TotalCapital = float64OfNumeric r.TotalCapital) ∧
      ((∀ r ∈ loanAccountTotalsRows db officer s e,
          float64InRange r.Amount = true ∧ roundFloat64 r.Amount = r.Amount) →
        (∀ r ∈ weeklyCapitalBuildUpRows db officer s e,
          float64InRange r.TotalCapital = true ∧ roundFloat64 r.TotalCapital = r.TotalCapital) →
        ∃ rs, (GetWeeklyCapitalBuildUp db c).response = .json 200 rs ∧
          (GetLoanAccountTotals db c).response
            = .json 200 ((loanAccountTotalsRows db officer s e).map scanLoanAccountResult) ∧
          ((((loanAccountTotalsRows db officer s e).filter
              (fun r => r.Particulars.isSome)).map scanLoanAccountResult).map
                (fun r => r.Amount.toRat)).sum
            = (rs.map (fun x => x.TotalCapital.toRat)).sum) := by
  refine ⟨(loanTotals_assigned_sum db officer s e).trans (weeklyCapital_sum db officer s e).symm,
    weeklyCapital_sum db officer s e, GetLoanAccountTotals_of_valid h, fun _ => rfl,
    GetWeeklyCapitalBuildUp_of_valid h,
    fun r x hx => ⟨(scanWeeklyCapitalBuildUp_eq_some r x hx).2.2.1,
      (scanWeeklyCapitalBuildUp_eq_some r x hx).2.2.2⟩, ?_⟩
  intro hL hW
  have hscan := scanRows_weekly_of_inRange (weeklyCapitalBuildUpRows db officer s e)
    (fun r hr => (hW r hr).1)
  refine ⟨_, by rw [GetWeeklyCapitalBuildUp_of_valid h, hscan], ?_, ?_⟩
  · rw [GetLoanAccountTotals_of_valid h, if_pos]
    exact List.all_eq_true.mpr (fun r hr => (hL r hr).1)
  · have h1 : (((loanAccountTotalsRows db officer s e).filter
        (fun r => r.Particulars.isSome)).map scanLoanAccountResult).map
          (fun r => r.Amount.toRat)
        = ((loanAccountTotalsRows db officer s e).filter
            (fun r => r.Particulars.isSome)).map (fun r => r.Amount) := by
      rw [List.map_map]
      apply List.map_congr_left
      intro r hr
      have := (hL r (List.mem_filter.mp hr).1).2
      simp only [Function.comp, scanLoanAccountResult, toRat_float64OfNumeric, this]
    have h2 : ((weeklyCapitalBuildUpRows db officer s e).map (fun r =>
          ({ Title := r.Title, Week := r.Week,
             TotalCapital := float64OfNumeric r.TotalCapital } : WeeklyCapitalBuildUp))).map
          (fun x => x.TotalCapital.toRat)
        = (weeklyCapitalBuildUpRows db officer s e).map (fun r => r.TotalCapital) := by
      rw [List.map_map]
      apply List.map_congr_left
      intro r hr
      simp only [Function.comp, toRat_float64OfNumeric, (hW r hr).2]
    rw [h1, h2]
    exact (loanTotals_assigned_sum db officer s e).trans (weeklyCapital_sum db officer s e).symm

/-- C6 fails as stated: with balances -0.1 and -0.2 of different bill types in one week the
reported Amounts are the float64 values of 0.1 and 0.2 and the reported TotalCapital is the
float64 value of 0.3, and the former do not add up to the latter, neither exactly nor in
float64 arithmetic. -/
theorem float_amounts_do_not_add_up :
    (GetLoanAccountTotals floatDB sampleCtx).response
        = .json 200 [⟨"A", 1, ⟨3602879701896397, 36028797018963968⟩⟩,
            ⟨"B", 1, ⟨3602879701896397, 18014398509481984⟩⟩] ∧
      (GetWeeklyCapitalBuildUp floatDB sampleCtx).response
        = .json 200
            [⟨"Capital Build Up", "Week 1", ⟨5404319552844595, 18014398509481984⟩⟩] ∧
      Float64.toRat ⟨3602879701896397, 36028797018963968⟩
          + Float64.toRat ⟨3602879701896397, 18014398509481984⟩
        ≠ Float64.toRat ⟨5404319552844595, 18014398509481984⟩ ∧
      float64OfNumeric (Float64.toRat ⟨3602879701896397, 36028797018963968⟩
          + Float64.toRat ⟨3602879701896397, 18014398509481984⟩)
        ≠ ⟨5404319552844595, 18014398509481984⟩ := by
  refine ⟨by with_unfolding_all decide, by with_unfolding_all decide,
    by with_unfolding_all decide, by with_unfolding_all decide⟩

/-- In the sample store the group of bill type W has the amount -3, and the weeks 1 and 5
have the capital 5 and -8. -/
theorem exact_loanTotals_eq_weeklyCapital_witness :
    validRequest sampleDB sampleCtx "O1" ⟨2024, 1, 1⟩ ⟨2024, 12, 31⟩ ∧
      (GetLoanAccountTotals sampleDB sampleCtx).response
        = .json 200 [⟨"", 0, ⟨7, 1⟩⟩, ⟨"W", 2, ⟨-3, 1⟩⟩] ∧
      (GetWeeklyCapitalBuildUp sampleDB sampleCtx).response
        = .json 200 [⟨"Capital Build Up", "Week 1", ⟨5, 1⟩⟩,
            ⟨"Capital Build Up", "Week 5", ⟨-8, 1⟩⟩] ∧
      (((loanAccountTotalsRows sampleDB "O1" ⟨2024, 1, 1⟩ ⟨2024, 12, 31⟩).filter
          (fun r => r.Particulars.isSome)).map (fun r => r.Amount)).sum
        = ((weeklyCapitalBuildUpRows sampleDB "O1" ⟨2024, 1, 1⟩ ⟨2024, 12, 31⟩).map
            (fun r => r.TotalCapital)).sum :=
  ⟨sample_valid, by with_unfolding_all decide, by with_unfolding_all decide,
    (exact_loanTotals_eq_weeklyCapital sampleDB sampleCtx "O1" ⟨2024, 1, 1⟩ ⟨2024, 12, 31⟩
      sample_valid).1⟩

/-! ## Sign and rounding of the reported amounts -/

/-- C10, amended: the exact amount of a row of the loan totals statement and of the weekly
capital statement is the sum of the negated stored balances of the records of its group;
the reported Amount and TotalCapital are that amount read into a float64, which is within
half a unit in the last place of it, not negative when the stored balances of the group sum
to at most zero and not positive when they sum to at least zero; so no reported amount is
negative when no stored balance is positive.  The loan totals report is returned when all
amounts are in the range of float64, the weekly report when all totals are. -/
theorem amounts_are_rounded_negated_sums (db : DB) (c : Ctx) (officer : String) (s e : Date)
    (h : validRequest db c officer s e) :
    (GetLoanAccountTotals db c).response
        = (if (loanAccountTotalsRows db officer s e).all (fun r => float64InRange r.Amount) then
            .json 200 ((loanAccountTotalsRows db officer s e).map scanLoanAccountResult)
          else .error 500 "Failed to get loan account totals") ∧
      (∀ r ∈ loanAccountTotalsRows db officer s e,
        r.Amount
            = ((groupOf (fun x : LoanAcct => x.bill_type) (matchingLoans db officer s e)
                r.Particulars).map (fun x => - x.online_actual_bal)).sum ∧
          (scanLoanAccountResult r).Amount = float64OfNumeric r.Amount ∧
          (scanLoanAccountResult r).Amount.toRat = roundFloat64 r.Amount ∧
          (((groupOf (fun x : LoanAcct => x.bill_type) (matchingLoans db officer s e)
              r.Particulars).map (fun x => x.online_actual_bal)).sum ≤ 0 →
            0 ≤ (scanLoanAccountResult r).Amount.toRat) ∧
          (0 ≤ ((groupOf (fun x : LoanAcct => x.bill_type) (matchingLoans db officer s e)
              r.Particulars).map (fun x => x.online_actual_bal)).sum →
            (scanLoanAccountResult r).Amount.toRat ≤ 0)) ∧
      ((∀ r ∈ weeklyCapitalBuildUpRows db officer s e, float64InRange r.TotalCapital = true) →
        ∃ rs, (GetWeeklyCapitalBuildUp db c).response = .json 200 rs) ∧
      (∀ rs, (GetWeeklyCapitalBuildUp db c).response = .json 200 rs →
        rs.length = (weeklyCapitalBuildUpRows db officer s e).length ∧
        ∀ x ∈ rs, ∃ r ∈ weeklyCapitalBuildUpRows db officer s e,
          x.Week = r.Week ∧
          r.TotalCapital
            = ((groupOf weekOfOpening (capitalLoans db officer s e) r.Week).map
                (fun y => - y.online_actual_bal)).sum ∧
          x.TotalCapital = float64OfNumeric r.TotalCapital ∧
          x.TotalCapital.toRat = roundFloat64 r.TotalCapital ∧
          (((groupOf weekOfOpening (capitalLoans db officer s e) r.Week).map
              (fun y => y.online_actual_bal)).sum ≤ 0 → 0 ≤ x.TotalCapital.toRat) ∧
          (0 ≤ ((groupOf weekOfOpening (capitalLoans db officer s e) r.Week).map
              (fun y => y.online_actual_bal)).sum → x.TotalCapital.toRat ≤ 0)) ∧
      ((∀ la ∈ db.loan_acct, la.online_actual_bal ≤ 0) →
        (∀ r ∈ (loanAccountTotalsRows db officer s e).map scanLoanAccountResult,
          0 ≤ r.Amount.toRat) ∧
        ∀ rs, (GetWeeklyCapitalBuildUp db c).response = .json 200 rs →
          ∀ x ∈ rs, 0 ≤ x.TotalCapital.toRat) ∧
      ∀ q : ℚ, |roundFloat64 q - q| ≤ (2 : ℚ) ^ (float64Exponent q.num.natAbs q.den) / 2 := by
  have hL : ∀ r ∈ loanAccountTotalsRows db officer s e,
      r.Amount
          = ((groupOf (fun x : LoanAcct => x.bill_type) (matchingLoans db officer s e)
              r.Particulars).map (fun x => - x.online_actual_bal)).sum ∧
        (scanLoanAccountResult r).Amount = float64OfNumeric r.Amount ∧
        (scanLoanAccountResult r).Amount.toRat = roundFloat64 r.Amount ∧
        (((groupOf (fun x : LoanAcct => x.bill_type) (matchingLoans db officer s e)
            r.Particulars).map (fun x => x.online_actual_bal)).sum ≤ 0 →
          0 ≤ (scanLoanAccountResult r).Amount.toRat) ∧
        (0 ≤ ((groupOf (fun x : LoanAcct => x.bill_type) (matchingLoans db officer s e)
            r.Particulars).map (fun x => x.online_actual_bal)).sum →
          (scanLoanAccountResult r).Amount.toRat ≤ 0) := by
    intro r hr
    have ha := loanTotals_amount_eq db officer s e r hr
    have hs := float64_sign (sqlSum (fun x : LoanAcct => x.online_actual_bal)
      (groupOf (fun x : LoanAcct => x.bill_type) (matchingLoans db officer s e) r.Particulars))
    rw [← ha] at hs
    exact ⟨by rw [ha, sum_mul_neg_one], rfl, toRat_float64OfNumeric _, hs.1, hs.2⟩
  have hW : ∀ rs, (GetWeeklyCapitalBuildUp db c).response = .json 200 rs →
      ∀ x ∈ rs, ∃ r ∈ weeklyCapitalBuildUpRows db officer s e,
        x.Week = r.Week ∧
        r.TotalCapital
          = ((groupOf weekOfOpening (capitalLoans db officer s e) r.Week).map
              (fun y => - y.online_actual_bal)).sum ∧
        x.TotalCapital = float64OfNumeric r.TotalCapital ∧
        x.TotalCapital.toRat = roundFloat64 r.TotalCapital ∧
        (((groupOf weekOfOpening (capitalLoans db officer s e) r.Week).map
            (fun y => y.online_actual_bal)).sum ≤ 0 → 0 ≤ x.TotalCapital.toRat) ∧
        (0 ≤ ((groupOf weekOfOpening (capitalLoans db officer s e) r.Week).map
            (fun y => y.online_actual_bal)).sum → x.TotalCapital.toRat ≤ 0) := by
    intro rs hrs x hx
    obtain ⟨r, hr, hscan⟩ := scanRows_eq_some _ _ _ (weeklyCapital_report h rs hrs) x hx
    obtain ⟨_, _, hweek, htot⟩ := scanWeeklyCapitalBuildUp_eq_some r x hscan
    have ha := weeklyCapital_total_eq db officer s e r hr
    have hs := float64_sign (sqlSum (fun y : LoanAcct => y.online_actual_bal)
      (groupOf weekOfOpening (capitalLoans db officer s e) r.Week))
    rw [← ha, ← htot] at hs
    exact ⟨r, hr, hweek, by rw [ha, sum_mul_neg_one], htot,
      by rw [htot, toRat_float64OfNumeric], hs.1, hs.2⟩
  refine ⟨GetLoanAccountTotals_of_valid h, hL, weeklyCapital_returned h, ?_, ?_,
    roundFloat64_error⟩
  · intro rs hrs
    exact ⟨scanRows_length _ _ _ (weeklyCapital_report h rs hrs), hW rs hrs⟩
  · intro hall
    constructor
    · intro r hr
      obtain ⟨r0, hr0, rfl⟩ := List.mem_map.mp hr
      exact (hL r0 hr0).2.2.2.1 (sqlSum_nonpos _ _
        (fun x hx => hall x (List.mem_filter.mp (List.mem_filter.mp hx).1).1))
    · intro rs hrs x hx
      obtain ⟨r, _, _, _, _, _, hle, _⟩ := hW rs hrs x hx
      exact hle (sqlSum_nonpos _ _
        (fun y hy => hall y (List.mem_filter.mp (List.mem_filter.mp hy).1).1))

/-- C10 fails as stated: a loan account whose balance is stored positive (8) makes the
amount of its bill-type group (-3) and the capital of its week (-8) negative; and the
balance -9007199254740993 is reported as 9007199254740992, which is not the sum of the
negated balances. -/
theorem positive_balance_reported_negative :
    (GetLoanAccountTotals sampleDB sampleCtx).response
        = .json 200 [⟨"", 0, ⟨7, 1⟩⟩, ⟨"W", 2, ⟨-3, 1⟩⟩] ∧
      (GetWeeklyCapitalBuildUp sampleDB sampleCtx).response
        = .json 200 [⟨"Capital Build Up", "Week 1", ⟨5, 1⟩⟩,
            ⟨"Capital Build Up", "Week 5", ⟨-8, 1⟩⟩] ∧
      Float64.toRat ⟨-3, 1⟩ < 0 ∧ Float64.toRat ⟨-8, 1⟩ < 0 ∧
      (GetLoanAccountTotals bigDB sampleCtx).response
        = .json 200 [⟨"W", 1, ⟨9007199254740992, 1⟩⟩] ∧
      ((bigDB.loan_acct.map (fun x : LoanAcct => - x.online_actual_bal)).sum).num = 9007199254740993 ∧
      Float64.toRat ⟨9007199254740992, 1⟩
        ≠ (bigDB.loan_acct.map (fun x : LoanAcct => - x.online_actual_bal)).sum := by
  refine ⟨by with_unfolding_all decide, by with_unfolding_all decide,
    by with_unfolding_all decide, by with_unfolding_all decide, by with_unfolding_all decide,
    by with_unfolding_all decide, by with_unfolding_all decide⟩


/-- The amended C10 at the store with the single balance `-(2 ^ 53 + 1)`. -/
theorem amounts_are_rounded_negated_sums_witness :
    validRequest bigDB sampleCtx "O1" ⟨2024, 1, 1⟩ ⟨2024, 12, 31⟩ ∧
      (∀ la ∈ bigDB.loan_acct, la.online_actual_bal ≤ 0) ∧
      (GetLoanAccountTotals bigDB sampleCtx).response
        = .json 200 [⟨"W", 1, ⟨9007199254740992, 1⟩⟩] ∧
      (∀ r ∈ (loanAccountTotalsRows bigDB "O1" ⟨2024, 1, 1⟩ ⟨2024, 12, 31⟩).map
        scanLoanAccountResult, 0 ≤ r.Amount.toRat) :=
  ⟨sample_valid, by with_unfolding_all decide, by with_unfolding_all decide,
    ((amounts_are_rounded_negated_sums bigDB sampleCtx "O1" ⟨2024, 1, 1⟩ ⟨2024, 12, 31⟩
      sample_valid).2.2.2.2.1 (by with_unfolding_all decide)).1⟩

end RbiBackend
